import Mathlib

/-!
# Verification of the tgpro asynchronous task orchestration core

Shallow embedding of `backend/services/async_task_service.py`,
`backend/services/websocket_service.py` and `backend/account_safety.py`.

Modelling conventions:
* machine timestamps (`datetime.now(timezone.utc)`) are drawn from a logical
  clock carried in the service state; every `now()` sample reads the clock and
  advances it, modelling a strictly increasing real-time clock;
* Python `dict`s keyed by strings are association lists in insertion order
  (update-in-place keeps the position, a new key is appended);
* the MongoDB log store and the websocket broadcast queue are event lists the
  operations append to;
* `uuid.uuid4()` freshness is modelled by a ghost field `used_ids` recording
  every id ever handed to `create_task`: a new id must not be in it.
-/

namespace Tgpro

/-- `TaskStatus` enum of `async_task_service.py`. -/
inductive TaskStatus where
  | pending
  | running
  | completed
  | failed
  | cancelled
  | paused
deriving DecidableEq, Repr

/-- `TaskType` enum of `async_task_service.py`. -/
inductive TaskType where
  | message_sending
  | bulk_message
  | group_management
  | system_maintenance
deriving DecidableEq, Repr

/-- The `progress` dict of a task.  The code overwrites the whole dict on every
tick; the dicts it writes always carry `percentage` and `stage`, and a few
optional extra keys depending on the routine (absent keys are `none`). -/
structure Progress where
  percentage : Nat
  stage : String
  worker : Option String := none
  current_recipient : Option Nat := none
  total_recipients : Option Nat := none
  current_template : Option Nat := none
  current_group : Option Nat := none
  total_groups : Option Nat := none
deriving DecidableEq, Repr

/-- One `{recipient, status, [error], timestamp}` record appended to
`results["messages"]` by `_process_message_sending_task`. -/
structure MessageRecord where
  recipient : String
  status : String
  error : Option String := none
  timestamp : Nat
deriving DecidableEq, Repr

/-- The `results` dict; its shape depends on the routine that populated it. -/
inductive TaskResults where
  | messageSending (total_recipients sent_count failed_count skipped_count : Nat)
      (messages : List MessageRecord)
  | bulkMessage (total_operations completed_operations
      templates_processed groups_processed : Nat)
  | groupManagement (operation : Option String)
      (total_groups processed_groups successful_operations failed_operations : Nat)
deriving DecidableEq, Repr

/-- The `parameters` dict, restricted to the keys the routines read
(`parameters.get(...)`; an absent key is `none`). -/
structure TaskParams where
  template_id : Option String := none
  recipients : Option (List String) := none
  templates : Option (List String) := none
  groups : Option (List String) := none
  operation : Option String := none
deriving DecidableEq, Repr

/-- The `TaskData` dataclass. -/
structure TaskData where
  task_id : String
  task_type : TaskType
  status : TaskStatus
  created_at : Nat
  updated_at : Nat
  progress : Progress
  parameters : TaskParams
  results : Option TaskResults := none
  error : Option String := none
  estimated_completion : Option Nat := none
  priority : Int := 5
deriving DecidableEq, Repr

/-- Events pushed onto the websocket manager's queue by the task service
(`add_task_update`, `add_log_message`, `add_monitoring_event`). -/
inductive WsEvent where
  | task_update (task_id : String) (status : TaskStatus) (progress : Progress)
      (results : Option TaskResults)
  | log_message (level message : String)
  | monitoring_event (event_type : String)
deriving DecidableEq, Repr

/-- State of one `AsyncTaskService` instance together with its collaborators:
the in-memory task index, the shared FIFO `asyncio.Queue`, the database log the
snapshots are appended to, the websocket event queue, the logical clock, and
the ghost set of ids ever issued. -/
structure ServiceState where
  task_queue : List (Int × String)
  active_tasks : List (String × TaskData)
  db_log : List TaskData
  ws_queue : List WsEvent
  clock : Nat
  used_ids : List String
deriving DecidableEq, Repr

/-- `datetime.now(timezone.utc)`: read the clock and advance it. -/
def ServiceState.tick (s : ServiceState) : Nat × ServiceState :=
  (s.clock, { s with clock := s.clock + 1 })

/-- Freshly constructed service (`__init__`): empty queue and index. -/
def initState (clock : Nat) : ServiceState :=
  { task_queue := [], active_tasks := [], db_log := [], ws_queue := [],
    clock := clock, used_ids := [] }

/-- Python dict read `d.get(id)` / `d[id]` on the task index. -/
def lookupTask (id : String) : List (String × TaskData) → Option TaskData
  | [] => none
  | (k, v) :: rest => if k = id then some v else lookupTask id rest

/-- Python dict write `d[id] = t`: update in place keeps the position, a new
key is appended. -/
def setTask (id : String) (t : TaskData) : List (String × TaskData) →
    List (String × TaskData)
  | [] => [(id, t)]
  | (k, v) :: rest => if k = id then (id, t) :: rest else (k, v) :: setTask id t rest

/-- `_store_task_in_db`: append the current snapshot to the log store. -/
def storeTask (t : TaskData) (s : ServiceState) : ServiceState :=
  { s with db_log := s.db_log ++ [t] }

/-- `websocket_manager.add_*`: append an event to the broadcast queue. -/
def pushWs (e : WsEvent) (s : ServiceState) : ServiceState :=
  { s with ws_queue := s.ws_queue ++ [e] }

/-- `AsyncTaskService.create_task`.  The generated `uuid4` id is passed in as
`task_id` and recorded in the ghost `used_ids`. -/
def create_task (task_id : String) (task_type : TaskType) (parameters : TaskParams)
    (priority : Int) (estimated_duration_minutes : Option Nat) (s : ServiceState) :
    String × ServiceState :=
  let (now, s) := s.tick
  let estimated_completion :=
    estimated_duration_minutes.bind fun m =>
      if m ≠ 0 then some (now + m * 60) else none
  let task : TaskData :=
    { task_id := task_id, task_type := task_type, status := .pending,
      created_at := now, updated_at := now,
      progress := { percentage := 0, stage := "created" },
      parameters := parameters, priority := priority,
      estimated_completion := estimated_completion }
  let s := { s with
    active_tasks := setTask task_id task s.active_tasks,
    task_queue := s.task_queue ++ [(priority, task_id)],
    used_ids := s.used_ids ++ [task_id] }
  let s := storeTask task s
  let s := pushWs (.task_update task_id .pending task.progress none) s
  (task_id, s)

/-- The task mutated by the cancellation branch of `cancel_task`. -/
def cancelMutate (t : TaskData) (now : Nat) : TaskData :=
  { t with status := .cancelled, updated_at := now,
           error := some "Task cancelled by user" }

/-- `AsyncTaskService.cancel_task`. -/
def cancel_task (task_id : String) (s : ServiceState) : Bool × ServiceState :=
  match lookupTask task_id s.active_tasks with
  | none => (false, s)
  | some task =>
    if task.status = .completed ∨ task.status = .failed ∨ task.status = .cancelled then
      (false, s)
    else
      let (now, s) := s.tick
      let task := cancelMutate task now
      let s := { s with active_tasks := setTask task_id task s.active_tasks }
      let s := storeTask task s
      let s := pushWs (.task_update task_id .cancelled task.progress task.results) s
      (true, s)

/-- One element of the list built by `list_tasks` (the keys it projects out of
each task). -/
structure TaskListEntry where
  task_id : String
  task_type : TaskType
  status : TaskStatus
  progress : Progress
  created_at : Nat
  estimated_completion : Option Nat
deriving DecidableEq, Repr

def TaskData.toListEntry (t : TaskData) : TaskListEntry :=
  { task_id := t.task_id, task_type := t.task_type, status := t.status,
    progress := t.progress, created_at := t.created_at,
    estimated_completion := t.estimated_completion }

/-- Sort key relation of `tasks.sort(key=..., reverse=True)`: descending by
`created_at` (the ISO timestamp strings compare like the underlying times). -/
def entryGE (a b : TaskListEntry) : Prop := b.created_at ≤ a.created_at

instance : DecidableRel entryGE := fun x y => Nat.decLe y.created_at x.created_at

instance : IsTotal TaskListEntry entryGE :=
  ⟨fun x y => Nat.le_total y.created_at x.created_at⟩

instance : IsTrans TaskListEntry entryGE :=
  ⟨fun _ _ _ h h' => Nat.le_trans h' h⟩

/-- `AsyncTaskService.list_tasks`: filter the in-memory index, sort newest
first (a stable sort, like Python's), truncate to `limit`. -/
def list_tasks (status_filter : Option TaskStatus) (limit : Nat) (s : ServiceState) :
    List TaskListEntry :=
  let matches_ := fun (t : TaskData) =>
    match status_filter with
    | none => true
    | some f => decide (t.status = f)
  let tasks := ((s.active_tasks.map Prod.snd).filter matches_).map TaskData.toListEntry
  (List.insertionSort entryGE tasks).take limit

/-- Python truthiness of the `template_id` parameter (`if not template_id`):
`None` and the empty string are falsy. -/
def pyTruthy : Option String → Bool
  | none => false
  | some str => !str.isEmpty

/-- Map a function over the `results` dict of a task (in-place mutation of the
dict held in `task.results`). -/
def TaskData.mapResults (t : TaskData) (f : TaskResults → TaskResults) : TaskData :=
  { t with results := t.results.map f }

/-- The per-attempt update of `results` inside `_process_message_sending_task`:
`i % 10 != 9` counts as a sent message, otherwise as a failed one. -/
def recordSendResult (i ts : Nat) : TaskResults → TaskResults
  | .messageSending total sent failed skipped msgs =>
    if i % 10 ≠ 9 then
      .messageSending total (sent + 1) failed skipped
        (msgs ++ [{ recipient := "recipient_" ++ toString i, status := "sent",
                    timestamp := ts }])
    else
      .messageSending total sent (failed + 1) skipped
        (msgs ++ [{ recipient := "recipient_" ++ toString i, status := "failed",
                    error := some "Rate limit exceeded", timestamp := ts }])
  | r => r

/-- The `for i in range(total_recipients)` loop of
`_process_message_sending_task`, over the list of remaining indices. -/
def sendLoop (task_total : Nat) (idxs : List Nat) (task : TaskData)
    (s : ServiceState) : TaskData × ServiceState :=
  match idxs with
  | [] => (task, s)
  | i :: rest =>
    let progress : Progress :=
      { percentage := i * 100 / task_total, stage := "sending_message",
        current_recipient := some (i + 1), total_recipients := some task_total }
    let (now, s) := s.tick
    let task := { task with progress := progress, updated_at := now }
    let s := storeTask task s
    let s := pushWs (.task_update task.task_id .running task.progress task.results) s
    -- `await asyncio.sleep(1 + i % 3)`: no observable state change
    let (ts, s) := s.tick
    let task := task.mapResults (recordSendResult i ts)
    sendLoop task_total rest task s

/-- `_process_message_sending_task`.  Returns the raised exception message (if
any), the task as mutated so far and the state. -/
def process_message_sending_task (task : TaskData) (s : ServiceState) :
    Option String × TaskData × ServiceState :=
  let template_id := task.parameters.template_id
  let recipients := (task.parameters.recipients).getD []
  if !pyTruthy template_id then
    (some "template_id is required for message sending", task, s)
  else
    let total_recipients := if recipients.isEmpty then 10 else recipients.length
    let task := { task with
      results := some (.messageSending total_recipients 0 0 0 []) }
    let r := sendLoop total_recipients (List.range total_recipients) task s
    (none, r.1, r.2)

def bumpCompleted : TaskResults → TaskResults
  | .bulkMessage total completed templates groups =>
    .bulkMessage total (completed + 1) templates groups
  | r => r

def bumpTemplates : TaskResults → TaskResults
  | .bulkMessage total completed templates groups =>
    .bulkMessage total completed (templates + 1) groups
  | r => r

def setGroupsProcessed (n : Nat) : TaskResults → TaskResults
  | .bulkMessage total completed templates _ =>
    .bulkMessage total completed templates n
  | r => r

/-- Inner `for group_idx, group in enumerate(groups)` loop of
`_process_bulk_message_task`; `opCount` threads `operation_count`. -/
def bulkInnerLoop (task_total tIdx : Nat) (gIdxs : List Nat) (opCount : Nat)
    (task : TaskData) (s : ServiceState) : Nat × TaskData × ServiceState :=
  match gIdxs with
  | [] => (opCount, task, s)
  | g :: rest =>
    let progress : Progress :=
      { percentage := opCount * 100 / task_total, stage := "processing_bulk_messages",
        current_template := some (tIdx + 1), current_group := some (g + 1) }
    let (now, s) := s.tick
    let task := { task with progress := progress, updated_at := now }
    let s := storeTask task s
    let s := pushWs (.task_update task.task_id .running task.progress task.results) s
    -- `await asyncio.sleep(2)`
    let task := task.mapResults bumpCompleted
    bulkInnerLoop task_total tIdx rest (opCount + 1) task s

/-- Outer `for template_idx, template in enumerate(message_templates)` loop. -/
def bulkOuterLoop (task_total gcount : Nat) (tIdxs : List Nat) (opCount : Nat)
    (task : TaskData) (s : ServiceState) : TaskData × ServiceState :=
  match tIdxs with
  | [] => (task, s)
  | t :: rest =>
    let r := bulkInnerLoop task_total t (List.range gcount) opCount task s
    bulkOuterLoop task_total gcount rest r.1 (r.2.1.mapResults bumpTemplates) r.2.2

/-- `_process_bulk_message_task`. -/
def process_bulk_message_task (task : TaskData) (s : ServiceState) :
    Option String × TaskData × ServiceState :=
  let templates := (task.parameters.templates).getD []
  let groups := (task.parameters.groups).getD []
  let total_operations := templates.length * groups.length
  let task := { task with results := some (.bulkMessage total_operations 0 0 0) }
  let r :=
    bulkOuterLoop total_operations groups.length (List.range templates.length) 0 task s
  (none, r.1.mapResults (setGroupsProcessed groups.length), r.2)

/-- Per-group `results` update of `_process_group_management_task`
(`i % 20 != 19` succeeds). -/
def recordGroupOp (i : Nat) : TaskResults → TaskResults
  | .groupManagement op total processed succ failed =>
    if i % 20 ≠ 19 then
      .groupManagement op total (processed + 1) (succ + 1) failed
    else
      .groupManagement op total (processed + 1) succ (failed + 1)
  | r => r

/-- `f"{operation}_groups"` where `operation` may be `None`. -/
def stageOfOperation (operation : Option String) : String :=
  (match operation with | some o => o | none => "None") ++ "_groups"

/-- The `for i, group in enumerate(groups)` loop of
`_process_group_management_task`. -/
def groupLoop (operation : Option String) (total : Nat) (idxs : List Nat)
    (task : TaskData) (s : ServiceState) : TaskData × ServiceState :=
  match idxs with
  | [] => (task, s)
  | i :: rest =>
    let progress : Progress :=
      { percentage := i * 100 / total, stage := stageOfOperation operation,
        current_group := some (i + 1), total_groups := some total }
    let (now, s) := s.tick
    let task := { task with progress := progress, updated_at := now }
    let s := storeTask task s
    let s := pushWs (.task_update task.task_id .running task.progress task.results) s
    -- `await asyncio.sleep(1.5)`
    let task := task.mapResults (recordGroupOp i)
    groupLoop operation total rest task s

/-- `_process_group_management_task`. -/
def process_group_management_task (task : TaskData) (s : ServiceState) :
    Option String × TaskData × ServiceState :=
  let operation := task.parameters.operation
  let groups := (task.parameters.groups).getD []
  let task := { task with
    results := some (.groupManagement operation groups.length 0 0 0) }
  let r := groupLoop operation groups.length (List.range groups.length) task s
  (none, r.1, r.2)

/-- `_fail_task`. -/
def fail_task (task : TaskData) (error : String) (s : ServiceState) :
    TaskData × ServiceState :=
  let (now, s) := s.tick
  let task := { task with status := .failed, error := some error, updated_at := now,
                          progress := { task.progress with stage := "failed" } }
  let s := storeTask task s
  let s := pushWs (.task_update task.task_id .failed task.progress task.results) s
  let s := pushWs (.log_message "error" ("Task failed: " ++ task.task_id)) s
  (task, s)

/-- The `if/elif` dispatch on `task.task_type` inside `_process_task`; the
`else` branch raises `ValueError(f"Unknown task type: {task.task_type}")`. -/
def run_routine (task : TaskData) (s : ServiceState) :
    Option String × TaskData × ServiceState :=
  match task.task_type with
  | .message_sending => process_message_sending_task task s
  | .bulk_message => process_bulk_message_task task s
  | .group_management => process_group_management_task task s
  | .system_maintenance =>
    (some "Unknown task type: TaskType.SYSTEM_MAINTENANCE", task, s)

/-- `_process_task`: transition to `running`, run the routine, transition to
`completed`; an exception triggers `_fail_task` here and is re-raised. -/
def process_task (worker_id : String) (task : TaskData) (s : ServiceState) :
    Option String × TaskData × ServiceState :=
  let (now, s) := s.tick
  let task := { task with
    status := .running, updated_at := now,
    progress := { percentage := 0, stage := "starting", worker := some worker_id } }
  let s := storeTask task s
  let s := pushWs (.task_update task.task_id .running task.progress none) s
  let r := run_routine task s
  match r.1 with
  | some e =>
    let fr := fail_task r.2.1 e r.2.2
    (some e, fr.1, fr.2)
  | none =>
    let task := r.2.1
    let s := r.2.2
    let (now, s) := s.tick
    let task := { task with
      status := .completed, updated_at := now,
      progress := { task.progress with percentage := 100, stage := "completed" } }
    let s := storeTask task s
    let s := pushWs (.task_update task.task_id .completed task.progress task.results) s
    let s := pushWs (.log_message "info"
      ("Task completed successfully: " ++ task.task_id)) s
    (none, task, s)

/-- One iteration of `_task_worker`: pop one `(priority, task_id)` entry
(FIFO), discard it if the task was cancelled while queued, otherwise process
it; an exception escaping `_process_task` is caught here and converted via a
second `_fail_task`.  The final task object is visible in the index (Python
mutates it in place). -/
def worker_step (worker_id : String) (s : ServiceState) : ServiceState :=
  match s.task_queue with
  | [] => s
  | (_, task_id) :: rest =>
    let s := { s with task_queue := rest }
    match lookupTask task_id s.active_tasks with
    | none => s
    | some task =>
      if task.status = .cancelled then s
      else
        let r := process_task worker_id task s
        match r.1 with
        | some e =>
          let fr := fail_task r.2.1 e r.2.2
          { fr.2 with active_tasks := setTask task_id fr.1 fr.2.active_tasks }
        | none =>
          { r.2.2 with active_tasks := setTask task_id r.2.1 r.2.2.active_tasks }

/-- One iteration of `_task_monitor`: drop terminal tasks whose `updated_at`
is older than one hour, then emit a `task_stats` monitoring event. -/
def monitor_step (s : ServiceState) : ServiceState :=
  let (now, s) := s.tick
  let cutoff := now - 3600
  let keep := fun (kv : String × TaskData) =>
    !(decide ((kv.2.status = .completed ∨ kv.2.status = .failed ∨
        kv.2.status = .cancelled) ∧ kv.2.updated_at < cutoff))
  let s := { s with active_tasks := s.active_tasks.filter keep }
  pushWs (.monitoring_event "task_stats") s

/-- First half of one worker iteration, up to and including the `running`
transition at the top of `_process_task`: pop one `(priority, task_id)` entry,
discard it if the task is gone or was cancelled while queued, otherwise set
`status = running`, persist and broadcast.  The very next statement of the
code (`await self._store_task_in_db`) suspends the worker coroutine, so every
other coroutine — in particular a `cancel_task` issued through the cancel
route — can run between this half and `worker_finish`.  Returns the id now
executing, if any. -/
def worker_begin (worker_id : String) (s : ServiceState) :
    ServiceState × Option String :=
  match s.task_queue with
  | [] => (s, none)
  | (_, task_id) :: rest =>
    let s := { s with task_queue := rest }
    match lookupTask task_id s.active_tasks with
    | none => (s, none)
    | some task =>
      if task.status = .cancelled then (s, none)
      else
        let (now, s) := s.tick
        let task := { task with
          status := .running, updated_at := now,
          progress := { percentage := 0, stage := "starting",
                        worker := some worker_id } }
        let s := { s with active_tasks := setTask task_id task s.active_tasks }
        let s := storeTask task s
        let s := pushWs (.task_update task.task_id .running task.progress none) s
        (s, some task_id)

/-- Second half of the worker iteration: the kind-specific routine runs to its
end, then `_process_task` either marks the task `completed` — overwriting
whatever `status` a concurrent `cancel_task` wrote, while **keeping** the
`error` that cancel stored — or, on an exception, runs `_fail_task` twice
(once in `_process_task`'s handler, once in the worker's).  The routine's
incremental writes are applied here in one step: the routine reads only the
immutable `parameters` and overwrites `progress`/`results` wholesale, and a
concurrently interleaved operation writes only `status`/`error`/`updated_at`
of this task, so collapsing the routine's internal suspension points changes
the relative order of persisted/broadcast events but not any task field.  If
the reaper evicted the task meanwhile, the worker keeps mutating an object
the index no longer holds; the index is unchanged (the orphan's log/broadcast
traffic is elided). -/
def worker_finish (task_id : String) (s : ServiceState) : ServiceState :=
  match lookupTask task_id s.active_tasks with
  | none => s
  | some task =>
    let r := run_routine task s
    match r.1 with
    | some e =>
      let fr := fail_task r.2.1 e r.2.2
      let fr2 := fail_task fr.1 e fr.2
      { fr2.2 with active_tasks := setTask task_id fr2.1 fr2.2.active_tasks }
    | none =>
      let task := r.2.1
      let s := r.2.2
      let (now, s) := s.tick
      let task := { task with
        status := .completed, updated_at := now,
        progress := { task.progress with percentage := 100, stage := "completed" } }
      let s := storeTask task s
      let s := pushWs (.task_update task.task_id .completed task.progress task.results) s
      let s := pushWs (.log_message "info"
        ("Task completed successfully: " ++ task.task_id)) s
      { s with active_tasks := setTask task_id task s.active_tasks }

/-- States reachable from a fresh service, together with the ids whose
execution has begun but not yet finished.  `create_task` (globally fresh
uuid), `cancel_task` and the reaper can fire at any point; a worker iteration
is split at its first internal suspension point into `worker_begin` and
`worker_finish`, so a cancellation (or any other operation) can land while a
task is `running` — the interleaving the single shared event loop of the code
permits.  The worker-count/semaphore bound is not imposed: dropping it only
adds interleavings, which is sound for the invariants claimed. -/
inductive Reach : ServiceState → List String → Prop where
  | init (c : Nat) : Reach (initState c) []
  | create {s fl} (h : Reach s fl) (id : String) (ttype : TaskType)
      (params : TaskParams) (priority : Int) (est : Option Nat)
      (hfresh : id ∉ s.used_ids) :
      Reach (create_task id ttype params priority est s).2 fl
  | cancel {s fl} (h : Reach s fl) (id : String) : Reach (cancel_task id s).2 fl
  | begin_ {s fl} (h : Reach s fl) (wid : String) :
      Reach (worker_begin wid s).1 (fl ++ (worker_begin wid s).2.toList)
  | finish {s fl} (h : Reach s fl) (id : String) (hmem : id ∈ fl) :
      Reach (worker_finish id s) (fl.erase id)
  | monitor {s fl} (h : Reach s fl) : Reach (monitor_step s) fl

/-!
## Broadcast layer (`websocket_service.py`)

A registry entry models one key of `active_connections` together with its
`connection_types` tag; `write_ok` says whether `websocket.send_text` succeeds
for that socket (a failed write raises and the client is cleaned up). -/

structure WsConn where
  client_id : String
  channel : String
  write_ok : Bool
deriving DecidableEq, Repr

/-- `WebSocketManager.disconnect`: delete the key if present (a dict holds
each key once, so removing the first occurrence models `del`). -/
def disconnect (client_id : String) : List WsConn → List WsConn
  | [] => []
  | c :: rest => if c.client_id = client_id then rest else c :: disconnect client_id rest

/-- Result of one broadcast call: the returned `sent_count`, the trace of
client ids whose socket was written to (in iteration order), and the registry
after the failed connections were cleaned up. -/
structure BroadcastResult where
  sent_count : Nat
  writes : List String
  conns : List WsConn
deriving DecidableEq, Repr

/-- The `for client_id, websocket in self.active_connections.items()` loop of
`broadcast_to_all`: accumulate `sent_count`, `clients_to_remove`, and the
trace of attempted writes. -/
def bcastAllLoop : List WsConn → Nat × List String × List String
  | [] => (0, [], [])
  | c :: rest =>
    let (sent, rem, wr) := bcastAllLoop rest
    if c.write_ok then (sent + 1, rem, c.client_id :: wr)
    else (sent, c.client_id :: rem, c.client_id :: wr)

/-- The same loop for `broadcast_to_type`, writing only to connections whose
`connection_types` entry equals `connection_type`. -/
def bcastTypeLoop (connection_type : String) : List WsConn → Nat × List String × List String
  | [] => (0, [], [])
  | c :: rest =>
    let (sent, rem, wr) := bcastTypeLoop connection_type rest
    if c.channel = connection_type then
      if c.write_ok then (sent + 1, rem, c.client_id :: wr)
      else (sent, c.client_id :: rem, c.client_id :: wr)
    else (sent, rem, wr)

/-- The post-loop cleanup `for client_id in clients_to_remove: disconnect`. -/
def removeIds (ids : List String) (conns : List WsConn) : List WsConn :=
  ids.foldl (fun cs i => disconnect i cs) conns

/-- `WebSocketManager.broadcast_to_all`. -/
def broadcast_to_all (conns : List WsConn) : BroadcastResult :=
  let (sent, rem, wr) := bcastAllLoop conns
  { sent_count := sent, writes := wr, conns := removeIds rem conns }

/-- `WebSocketManager.broadcast_to_type`. -/
def broadcast_to_type (connection_type : String) (conns : List WsConn) :
    BroadcastResult :=
  let (sent, rem, wr) := bcastTypeLoop connection_type conns
  { sent_count := sent, writes := wr, conns := removeIds rem conns }

/-- The `type_counts` accumulation of `get_connection_stats`. -/
def bumpCount (k : String) : List (String × Nat) → List (String × Nat)
  | [] => [(k, 1)]
  | (k', n) :: rest => if k' = k then (k', n + 1) :: rest else (k', n) :: bumpCount k rest

/-- `WebSocketManager.get_connection_stats` (the queue depth is not part of
the registry and is omitted). -/
structure ConnectionStats where
  total_connections : Nat
  connection_types : List (String × Nat)
  active_client_ids : List String
deriving DecidableEq, Repr

def get_connection_stats (conns : List WsConn) : ConnectionStats :=
  { total_connections := conns.length,
    connection_types := conns.foldl (fun acc c => bumpCount c.channel acc) [],
    active_client_ids := conns.map (·.client_id) }

/-- One iteration of `_process_message_queue` applied to a dequeued message of
type `mtype` against the current registry: the routing policy. -/
def process_queue_message (mtype : String) (conns : List WsConn) : BroadcastResult :=
  if mtype = "log" then broadcast_to_type "logs" conns
  else if mtype = "monitoring" then broadcast_to_type "monitoring" conns
  else if mtype = "task_update" then broadcast_to_all conns
  else broadcast_to_all conns

/-!
## Account safety scorer (`account_safety.py`)

Timestamps are seconds since the epoch (`Nat`); `now.replace(hour=0, ...)`
becomes truncation to the day, `now.replace(minute=0, ...)` truncation to the
hour.  Fractional arithmetic (`1.5` keyword weights, `0.8` rate thresholds) is
carried out in `ℚ`, which represents all the values the code manipulates
exactly.  MD5 hashing is modelled as the identity on the lowercased content:
the code uses the digest only as a set-membership key. -/

/-- `RiskLevel` enum.  It derives from plain `Enum`, so its members support
equality but not ordering comparisons. -/
inductive RiskLevel where
  | low
  | medium
  | high
  | critical
deriving DecidableEq, Repr

/-- `AccountHealthMetrics` dataclass. -/
structure AccountHealthMetrics where
  messages_sent_today : Nat := 0
  messages_sent_this_hour : Nat := 0
  groups_joined_today : Nat := 0
  failed_deliveries : Nat := 0
  flood_waits_today : Nat := 0
  last_flood_wait : Option Nat := none
  active_conversations : Nat := 0
  received_messages : Nat := 0
  successful_deliveries : Nat := 0
  account_age_days : Nat := 1
deriving DecidableEq, Repr

/-- `AccountHealthMetrics.success_rate`. -/
def AccountHealthMetrics.success_rate (m : AccountHealthMetrics) : ℚ :=
  let total := m.successful_deliveries + m.failed_deliveries
  if total > 0 then (m.successful_deliveries : ℚ) / (total : ℚ) else 1

/-- Mutable state of one `AccountSafetyManager` (the `message_history` deque
is touched only by `update_metrics_after_operation`, which none of the
embedded operations call, and is omitted). -/
structure SafetyState where
  health : AccountHealthMetrics
  content_hashes : List String
  daily_reset_time : Nat
  hourly_reset_time : Nat
deriving DecidableEq, Repr

/-- `self.risk_thresholds` built by `_initialize_risk_thresholds`; a missing
key (`thresholds.get(risk_level, float('inf'))`) is `none`. -/
def thresholdFor : String → RiskLevel → Option ℚ
  | "messages_per_hour", .low => some 10
  | "messages_per_hour", .medium => some 20
  | "messages_per_hour", .high => some 35
  | "messages_per_hour", .critical => some 50
  | "messages_per_day", .low => some 100
  | "messages_per_day", .medium => some 200
  | "messages_per_day", .high => some 350
  | "messages_per_day", .critical => some 500
  | "flood_waits_per_day", .low => some 0
  | "flood_waits_per_day", .medium => some 1
  | "flood_waits_per_day", .high => some 3
  | "flood_waits_per_day", .critical => some 5
  | "failed_delivery_rate", .low => some (1 / 10)
  | "failed_delivery_rate", .medium => some (2 / 10)
  | "failed_delivery_rate", .high => some (3 / 10)
  | "failed_delivery_rate", .critical => some (5 / 10)
  | _, _ => none

/-- `_load_spam_keywords`. -/
def spam_keywords : List String :=
  ["free money", "get rich quick", "limited time offer",
   "click here now", "guaranteed profit", "no risk",
   "make money fast", "exclusive deal", "urgent action required",
   "congratulations selected", "winner announcement", "claim prize",
   "crypto", "bitcoin", "investment", "trading", "forex"]

/-- `self.warmup_schedule` as a dict of dicts (`_create_warmup_schedule`). -/
def warmup_schedule : List (Nat × List (String × Nat)) :=
  [(1, [("max_messages", 5), ("max_groups", 1), ("delay_minutes", 30)]),
   (2, [("max_messages", 8), ("max_groups", 1), ("delay_minutes", 25)]),
   (3, [("max_messages", 12), ("max_groups", 2), ("delay_minutes", 20)]),
   (4, [("max_messages", 16), ("max_groups", 2), ("delay_minutes", 18)]),
   (5, [("max_messages", 20), ("max_groups", 3), ("delay_minutes", 15)]),
   (7, [("max_messages", 30), ("max_groups", 4), ("delay_minutes", 12)]),
   (14, [("max_messages", 50), ("max_groups", 5), ("delay_minutes", 10)]),
   (30, [("max_messages", 100), ("max_groups", 8), ("delay_minutes", 8)])]

/-- Python dict subscription `d[k]` for `Nat` keys: `none` is a `KeyError`. -/
def dictGetNat {α : Type} (k : Nat) : List (Nat × α) → Option α
  | [] => none
  | (k', v) :: rest => if k' = k then some v else dictGetNat k rest

/-- Python dict subscription `d[k]` for `String` keys: `none` is a `KeyError`. -/
def dictGetStr {α : Type} (k : String) : List (String × α) → Option α
  | [] => none
  | (k', v) :: rest => if k' = k then some v else dictGetStr k rest

/-- `_reset_daily_counters_if_needed` at time `now`. -/
def reset_daily (now : Nat) (st : SafetyState) : SafetyState :=
  let today_start := now / 86400 * 86400
  if today_start > st.daily_reset_time then
    { st with
      health := { st.health with
        messages_sent_today := 0, groups_joined_today := 0, flood_waits_today := 0 },
      daily_reset_time := today_start }
  else st

/-- `_reset_hourly_counters_if_needed` at time `now`. -/
def reset_hourly (now : Nat) (st : SafetyState) : SafetyState :=
  let hour_start := now / 3600 * 3600
  if hour_start > st.hourly_reset_time then
    { st with
      health := { st.health with messages_sent_this_hour := 0 },
      hourly_reset_time := hour_start }
  else st

/-- One comparison `value >= thresholds.get(risk_level, float('inf'))`:
nothing is `>= inf`. -/
def meetsThreshold (metric : String) (value : ℚ) (level : RiskLevel) : Bool :=
  match thresholdFor metric level with
  | some t => decide (t ≤ value)
  | none => false

/-- `_evaluate_threshold`: first of CRITICAL, HIGH, MEDIUM, LOW whose
threshold is reached, else LOW. -/
def evaluate_threshold (metric : String) (value : ℚ) : RiskLevel :=
  if meetsThreshold metric value .critical then .critical
  else if meetsThreshold metric value .high then .high
  else if meetsThreshold metric value .medium then .medium
  else if meetsThreshold metric value .low then .low
  else .low

/-- `needle` is a prefix of `haystack` (character lists). -/
def charsPre : List Char → List Char → Bool
  | [], _ => true
  | _ :: _, [] => false
  | a :: as, b :: bs => a = b && charsPre as bs

/-- Python substring test `needle in haystack` (character lists). -/
def charsSub (needle : List Char) : List Char → Bool
  | [] => needle.isEmpty
  | b :: bs => charsPre needle (b :: bs) || charsSub needle bs

/-- Python `needle in haystack` on strings. -/
def strContains (haystack needle : String) : Bool :=
  charsSub needle.toList haystack.toList

/-- Python `str.isupper`: at least one cased character and every cased
character uppercase (cased modelled as alphabetic). -/
def pyIsUpper (str : String) : Bool :=
  let cased := str.toList.filter Char.isAlpha
  !cased.isEmpty && cased.all Char.isUpper

/-- `content.count('!')`. -/
def countChar (str : String) (c : Char) : Nat :=
  (str.toList.filter (· = c)).length

/-- `len(set(content.replace(' ', '')))`. -/
def distinctNonSpace (str : String) : Nat :=
  ((str.toList.filter (· ≠ ' ')).dedup).length

/-- MD5 digest, modelled as the lowercased content itself (the digest is used
only as a set-membership key; collisions aside, this is faithful). -/
def md5_hash (content : String) : String := content.toLower

/-- `_analyze_content_risk`: score the content and record its hash. -/
def analyze_content_risk (content : String) (st : SafetyState) :
    RiskLevel × SafetyState :=
  let content_hash := md5_hash content
  let (dupPenalty, st) :=
    if content_hash ∈ st.content_hashes then ((2 : ℚ), st)
    else (0, { st with content_hashes := st.content_hashes ++ [content_hash] })
  let content_lower := content.toLower
  let spam_keyword_count :=
    (spam_keywords.filter (fun k => strContains content_lower k)).length
  let risk_score := dupPenalty + (spam_keyword_count : ℚ) * (3 / 2)
  let risk_score :=
    if content.length < 10 ∨ content.length > 500 then risk_score + 1 else risk_score
  let suspicious_patterns :=
    countChar content '!' > 3 ∨ pyIsUpper content = true ∨
      (distinctNonSpace content : ℚ) < (content.length : ℚ) * (3 / 10)
  let risk_score := if suspicious_patterns then risk_score + 2 else risk_score
  let level : RiskLevel :=
    if risk_score ≥ 8 then .critical
    else if risk_score ≥ 5 then .high
    else if risk_score ≥ 2 then .medium
    else .low
  (level, st)

/-- Python `max` over a list of `RiskLevel` values.  `RiskLevel` is a plain
`Enum`, whose members do not support `>`; `max` therefore raises `TypeError`
as soon as it has to compare two elements.  Only a singleton list (no
comparison performed) yields a value; the empty list raises `ValueError`.
`none` models the raised exception. -/
def pyMaxRiskLevel : List RiskLevel → Option RiskLevel
  | [] => none
  | [x] => some x
  | _ :: _ :: _ => none

/-- `f"{q:.2%}"`-style rendering, abstracted (no claim inspects the text). -/
def fmtPercent (q : ℚ) : String := toString (q * 100) ++ "%"

/-- `assess_operation_risk`.  `content : Option String` models the `content=None`
default; the result is `none` when the Python call raises. -/
def assess_operation_risk (now : Nat) (operation_type : String)
    (recipient_count : Nat) (content : Option String) (st : SafetyState) :
    Option ((RiskLevel × List String) × SafetyState) :=
  let st := reset_daily now st
  let st := reset_hourly now st
  let (risk_scores, risk_factors, st) :=
    if operation_type = "send_messages" then
      let projected_hourly := st.health.messages_sent_this_hour + recipient_count
      let hourly_risk := evaluate_threshold "messages_per_hour" (projected_hourly : ℚ)
      let f1 : List String :=
        if hourly_risk ≠ .low then
          ["Hourly message limit concern: " ++ toString projected_hourly]
        else []
      let projected_daily := st.health.messages_sent_today + recipient_count
      let daily_risk := evaluate_threshold "messages_per_day" (projected_daily : ℚ)
      let f2 : List String :=
        if daily_risk ≠ .low then
          ["Daily message limit concern: " ++ toString projected_daily]
        else []
      let (cs, cf, st) :=
        match content with
        | some c =>
          if !c.isEmpty then
            let ar := analyze_content_risk c st
            ([ar.1],
             if ar.1 ≠ .low then ["Content contains spam indicators"] else [],
             ar.2)
          else ([], [], st)
        | none => ([], [], st)
      ([hourly_risk, daily_risk] ++ cs, f1 ++ f2 ++ cf, st)
    else ([], [], st)
  let flood_wait_risk :=
    evaluate_threshold "flood_waits_per_day" (st.health.flood_waits_today : ℚ)
  let risk_scores := risk_scores ++ [flood_wait_risk]
  let risk_factors := risk_factors ++
    (if flood_wait_risk ≠ .low then
      ["Recent flood waits: " ++ toString st.health.flood_waits_today]
     else [])
  let (risk_scores, risk_factors) :=
    if st.health.success_rate < 4 / 5 then
      (risk_scores ++ [RiskLevel.high],
       risk_factors ++ ["Low success rate: " ++ fmtPercent st.health.success_rate])
    else (risk_scores, risk_factors)
  if risk_scores.isEmpty then some ((.low, risk_factors), st)
  else
    match pyMaxRiskLevel risk_scores with
    | none => none
    | some overall => some ((overall, risk_factors), st)

/-- The descending key iteration of `_get_warmup_limits`
(`sorted(self.warmup_schedule.keys(), reverse=True)`). -/
def warmupLoop (age : Nat) : List Nat → Option (List (String × Nat))
  | [] => dictGetNat 1 warmup_schedule
  | d :: rest =>
    if age ≥ d then dictGetNat d warmup_schedule else warmupLoop age rest

/-- `_get_warmup_limits`. -/
def get_warmup_limits (account_age_days : Nat) : Option (List (String × Nat)) :=
  warmupLoop account_age_days [30, 14, 7, 5, 4, 3, 2, 1]

/-- The decision ladder of `should_proceed_with_operation` after the warmup
check (`now - t` saturates at 0 like the Python comparison outcome). -/
def risk_decision (now recipient_count : Nat) (risk_level : RiskLevel)
    (risk_factors : List String) (st : SafetyState) : Bool × List String :=
  match risk_level with
  | .critical =>
    (false, "Operation blocked due to critical risk level" :: risk_factors)
  | .high =>
    if recipient_count > 10 ∨ st.health.success_rate < 9 / 10 then
      (false, "Operation blocked due to high risk level" :: risk_factors)
    else (true, risk_factors)
  | .medium =>
    match st.health.last_flood_wait with
    | some t =>
      if now - t < 7200 then
        (false, "Cooling-off period after recent flood wait" :: risk_factors)
      else (true, risk_factors)
    | none => (true, risk_factors)
  | .low => (true, risk_factors)

/-- `should_proceed_with_operation`; `none` models a raised exception. -/
def should_proceed_with_operation (now : Nat) (operation_type : String)
    (recipient_count : Nat) (content : Option String) (force : Bool)
    (st : SafetyState) : Option ((Bool × List String) × SafetyState) :=
  if force then some ((true, ["Operation forced by user"]), st)
  else
    match assess_operation_risk now operation_type recipient_count content st with
    | none => none
    | some ((risk_level, risk_factors), st) =>
      if st.health.account_age_days < 30 then
        match get_warmup_limits st.health.account_age_days with
        | none => none
        | some warmup_limits =>
          match dictGetStr "max_messages" warmup_limits with
          | none => none
          | some max_messages =>
            if operation_type = "send_messages" ∧
               st.health.messages_sent_today + recipient_count > max_messages then
              some ((false, ["Exceeds warmup phase message limits"]), st)
            else some (risk_decision now recipient_count risk_level risk_factors st, st)
      else some (risk_decision now recipient_count risk_level risk_factors st, st)

/-- Keys of the task index, in insertion order. -/
def keysOf (m : List (String × TaskData)) : List String := m.map Prod.fst

/-- The parts of the service state no routine body writes to. -/
def SameCore (s s' : ServiceState) : Prop :=
  s'.task_queue = s.task_queue ∧ s'.active_tasks = s.active_tasks ∧
    s'.used_ids = s.used_ids

/-- Identity and control fields of a task none of the routine loops write. -/
def SameTaskCore (t t' : TaskData) : Prop :=
  t'.status = t.status ∧ t'.error = t.error ∧ t'.task_id = t.task_id ∧
    t'.task_type = t.task_type ∧ t'.parameters = t.parameters

/-!
## The service invariant

The inductive invariant maintained by every reachable service state `s` with
in-flight executions `fl`.  The fields the claims are about are
`error_terminal` and `error_status` (C1: an error is present whenever the
status is `failed` or `cancelled`, and an error is only ever present on a
`failed`, `cancelled` or `completed` task — `completed` because the
completion transition overwrites the status a mid-execution cancel wrote
while keeping its error) and `pending_no_results` (C8).  The remaining fields
make the induction go through: queued ids are pairwise distinct issued ids
disjoint from the in-flight ids, index keys are distinct issued ids, and
every queued entry's task (if still indexed) is `pending` or `cancelled`. -/
structure Inv (s : ServiceState) (fl : List String) : Prop where
  error_terminal : ∀ id t, lookupTask id s.active_tasks = some t →
    (t.status = .failed ∨ t.status = .cancelled) → t.error ≠ none
  error_status : ∀ id t, lookupTask id s.active_tasks = some t →
    t.error ≠ none →
    (t.status = .failed ∨ t.status = .cancelled ∨ t.status = .completed)
  pending_no_results : ∀ id t, lookupTask id s.active_tasks = some t →
    t.status = .pending → t.results = none
  queue_nodup : (s.task_queue.map Prod.snd).Nodup
  queue_used : ∀ e ∈ s.task_queue, e.2 ∈ s.used_ids
  keys_used : ∀ id ∈ keysOf s.active_tasks, id ∈ s.used_ids
  keys_nodup : (keysOf s.active_tasks).Nodup
  queue_status : ∀ e ∈ s.task_queue, ∀ t, lookupTask e.2 s.active_tasks = some t →
    t.status = .pending ∨ t.status = .cancelled
  queue_flight_disjoint : ∀ e ∈ s.task_queue, e.2 ∉ fl
  flight_used : ∀ id ∈ fl, id ∈ s.used_ids

/-!
## Concrete sample states used by counterexamples and witnesses
-/

/-- The service right after `create_task("t1", message_sending, {})` on a
fresh instance. -/
def sampleCreated : ServiceState :=
  (create_task "t1" .message_sending {} 5 none (initState 0)).2

/-- The pending task held by `sampleCreated`. -/
def samplePending : TaskData :=
  { task_id := "t1", task_type := .message_sending, status := .pending,
    created_at := 0, updated_at := 0,
    progress := { percentage := 0, stage := "created" },
    parameters := {} }

/-- `sampleCreated` after `cancel_task("t1")`. -/
def sampleCancelled : ServiceState := (cancel_task "t1" sampleCreated).2

/-- The cancelled task held by `sampleCancelled`. -/
def sampleCancelledTask : TaskData := cancelMutate samplePending 1

/-- Claim C1 formalized exactly as stated by the spec: in every reachable
service state, every indexed task has a non-null `error` iff its `status` is
`failed`. -/
def C1Claim : Prop :=
  ∀ (s : ServiceState) (fl : List String), Reach s fl →
    ∀ id t, lookupTask id s.active_tasks = some t →
      (t.error ≠ none ↔ t.status = TaskStatus.failed)

/-- A one-recipient message-send task submitted on a fresh service: the base
of the interleaved cancel-while-running trace. -/
def interleaveCreated : ServiceState :=
  (create_task "t2" .message_sending
    { template_id := some "tpl", recipients := some ["r"] } 5 none (initState 0)).2

/-- `interleaveCreated` after `worker_begin`: the task is `running`. -/
def interleaveRunning : ServiceState := (worker_begin "w" interleaveCreated).1

/-- `interleaveRunning` after a concurrent `cancel_task` landed mid-execution:
the task is `cancelled` with `error` set while the worker still runs it. -/
def interleaveCancelled : ServiceState := (cancel_task "t2" interleaveRunning).2

/-- `interleaveCancelled` after the worker's `worker_finish`: `_process_task`
overwrites the status to `completed` but keeps the cancel's `error`. -/
def interleaveDone : ServiceState := worker_finish "t2" interleaveCancelled

/-- One `create_task` call as submitted through the API. -/
structure Submission where
  id : String
  ttype : TaskType
  params : TaskParams
  priority : Int
  est : Option Nat

/-- A sequence of `create_task` calls. -/
def createAll (subs : List Submission) (s : ServiceState) : ServiceState :=
  subs.foldl
    (fun s sub => (create_task sub.id sub.ttype sub.params sub.priority sub.est s).2) s

/-- The `parameters` dict of a message-send submission carrying a template id
and a recipients list. -/
def msgParams (tid : String) (rs : List String) : TaskParams :=
  { template_id := some tid, recipients := some rs }

/-- A registry with one broken socket on `logs`, a live one on `logs` and a
live one on `monitoring`. -/
def demoConns : List WsConn :=
  [{ client_id := "a", channel := "logs", write_ok := false },
   { client_id := "b", channel := "logs", write_ok := true },
   { client_id := "c", channel := "monitoring", write_ok := true }]

/-- A fresh `AccountSafetyManager()` state (constructed at time 0). -/
def freshSafetyState : SafetyState :=
  { health := {}, content_hashes := [], daily_reset_time := 0,
    hourly_reset_time := 0 }

/-!
## Dictionary lemmas
-/

@[simp] theorem keysOf_nil : keysOf [] = [] := rfl

@[simp] theorem keysOf_cons (kv : String × TaskData) (m : List (String × TaskData)) :
    keysOf (kv :: m) = kv.1 :: keysOf m := rfl

theorem lookupTask_setTask_self (id : String) (t : TaskData)
    (m : List (String × TaskData)) : lookupTask id (setTask id t m) = some t := by
  induction m with
  | nil => simp [setTask, lookupTask]
  | cons kv rest ih =>
    obtain ⟨k, v⟩ := kv
    by_cases h : k = id
    · simp [setTask, h, lookupTask]
    · simp [setTask, h, lookupTask, ih]

theorem lookupTask_setTask_ne {id' id : String} (h : id' ≠ id) (t : TaskData)
    (m : List (String × TaskData)) :
    lookupTask id' (setTask id t m) = lookupTask id' m := by
  induction m with
  | nil => simp [setTask, lookupTask, Ne.symm h]
  | cons kv rest ih =>
    obtain ⟨k, v⟩ := kv
    by_cases hk : k = id
    · subst hk
      simp [setTask, lookupTask, Ne.symm h]
    · simp [setTask, hk, lookupTask, ih]

theorem mem_keysOf_of_lookupTask {id : String} {t : TaskData}
    {m : List (String × TaskData)} (h : lookupTask id m = some t) : id ∈ keysOf m := by
  induction m with
  | nil => simp [lookupTask] at h
  | cons kv rest ih =>
    obtain ⟨k, v⟩ := kv
    by_cases hk : k = id
    · simp [hk]
    · simp only [lookupTask, if_neg hk] at h
      simp only [keysOf_cons, List.mem_cons]
      exact Or.inr (ih h)

theorem lookupTask_eq_none_of_not_mem {id : String} {m : List (String × TaskData)}
    (h : id ∉ keysOf m) : lookupTask id m = none := by
  induction m with
  | nil => simp [lookupTask]
  | cons kv rest ih =>
    obtain ⟨k, v⟩ := kv
    simp only [keysOf_cons, List.mem_cons, not_or] at h
    simp only [lookupTask]
    rw [if_neg (fun hk => h.1 hk.symm)]
    exact ih h.2

theorem keysOf_setTask_mem {id : String} {m : List (String × TaskData)}
    (h : id ∈ keysOf m) (t : TaskData) : keysOf (setTask id t m) = keysOf m := by
  induction m with
  | nil => simp at h
  | cons kv rest ih =>
    obtain ⟨k, v⟩ := kv
    by_cases hk : k = id
    · simp [setTask, hk]
    · simp only [keysOf_cons, List.mem_cons] at h
      rcases h with h | h

      · exact absurd h.symm hk
      · simp [setTask, hk, ih h]

theorem keysOf_setTask_not_mem {id : String} {m : List (String × TaskData)}
    (h : id ∉ keysOf m) (t : TaskData) : keysOf (setTask id t m) = keysOf m ++ [id] := by
  induction m with
  | nil => simp [setTask]
  | cons kv rest ih =>
    obtain ⟨k, v⟩ := kv
    simp only [keysOf_cons, List.mem_cons, not_or] at h
    simp only [setTask]
    rw [if_neg (fun hk => h.1 hk.symm)]
    simp [ih h.2]

theorem keysOf_filter_sublist (p : String × TaskData → Bool)
    (m : List (String × TaskData)) :
    List.Sublist (keysOf (m.filter p)) (keysOf m) :=
  (List.filter_sublist m).map Prod.fst

theorem lookupTask_filter {id : String} {t : TaskData} {m : List (String × TaskData)}
    {p : String × TaskData → Bool} (hnd : (keysOf m).Nodup)
    (h : lookupTask id (m.filter p) = some t) : lookupTask id m = some t := by
  induction m with
  | nil => simp [lookupTask] at h
  | cons kv rest ih =>
    obtain ⟨k, v⟩ := kv
    simp only [keysOf_cons, List.nodup_cons] at hnd
    by_cases hk : k = id
    · subst hk
      by_cases hp : p (k, v)
      · simpa [List.filter_cons, hp, lookupTask] using h
      · exfalso
        simp only [List.filter_cons, hp] at h
        have : k ∈ keysOf (rest.filter p) := mem_keysOf_of_lookupTask h
        exact hnd.1 ((keysOf_filter_sublist p rest).subset this)
    · by_cases hp : p (k, v)
      · simp only [List.filter_cons, hp] at h
        simp only [lookupTask, if_neg hk] at h ⊢
        exact ih hnd.2 h
      · simp only [List.filter_cons, hp] at h
        simp only [lookupTask, if_neg hk]
        exact ih hnd.2 h

/-!
## Frame lemmas: the worker routines do not touch the queue, the index or the
issued-id set, and never change a task's `status`, `error` or identity fields.
-/

theorem SameCore_refl (s : ServiceState) : SameCore s s := ⟨rfl, rfl, rfl⟩

theorem SameCore_trans {s₁ s₂ s₃ : ServiceState} (h : SameCore s₁ s₂)
    (h' : SameCore s₂ s₃) : SameCore s₁ s₃ :=
  ⟨h'.1.trans h.1, h'.2.1.trans h.2.1, h'.2.2.trans h.2.2⟩

theorem SameTaskCore_refl (t : TaskData) : SameTaskCore t t := ⟨rfl, rfl, rfl, rfl, rfl⟩

theorem SameTaskCore_trans {t₁ t₂ t₃ : TaskData} (h : SameTaskCore t₁ t₂)
    (h' : SameTaskCore t₂ t₃) : SameTaskCore t₁ t₃ :=
  ⟨h'.1.trans h.1, h'.2.1.trans h.2.1, h'.2.2.1.trans h.2.2.1,
   h'.2.2.2.1.trans h.2.2.2.1, h'.2.2.2.2.trans h.2.2.2.2⟩

theorem SameTaskCore_mapResults (t : TaskData) (f : TaskResults → TaskResults) :
    SameTaskCore t (t.mapResults f) := ⟨rfl, rfl, rfl, rfl, rfl⟩

theorem SameTaskCore_setResults (t : TaskData) (r : Option TaskResults) :
    SameTaskCore t { t with results := r } := ⟨rfl, rfl, rfl, rfl, rfl⟩

theorem sendLoop_frame (tot : Nat) (idxs : List Nat) (task : TaskData)
    (s : ServiceState) :
    SameCore s (sendLoop tot idxs task s).2 ∧
      SameTaskCore task (sendLoop tot idxs task s).1 := by
  induction idxs generalizing task s with
  | nil => exact ⟨SameCore_refl s, SameTaskCore_refl task⟩
  | cons i rest ih =>
    simp only [sendLoop, ServiceState.tick, storeTask, pushWs]
    exact ⟨SameCore_trans ⟨rfl, rfl, rfl⟩ (ih _ _).1,
           SameTaskCore_trans ⟨rfl, rfl, rfl, rfl, rfl⟩ (ih _ _).2⟩

theorem bulkInnerLoop_frame (tot tIdx : Nat) (gIdxs : List Nat) (opCount : Nat)
    (task : TaskData) (s : ServiceState) :
    SameCore s (bulkInnerLoop tot tIdx gIdxs opCount task s).2.2 ∧
      SameTaskCore task (bulkInnerLoop tot tIdx gIdxs opCount task s).2.1 := by
  induction gIdxs generalizing opCount task s with
  | nil => exact ⟨SameCore_refl s, SameTaskCore_refl task⟩
  | cons g rest ih =>
    simp only [bulkInnerLoop, ServiceState.tick, storeTask, pushWs]
    exact ⟨SameCore_trans ⟨rfl, rfl, rfl⟩ (ih _ _ _).1,
           SameTaskCore_trans ⟨rfl, rfl, rfl, rfl, rfl⟩ (ih _ _ _).2⟩

theorem bulkOuterLoop_frame (tot gcount : Nat) (tIdxs : List Nat) (opCount : Nat)
    (task : TaskData) (s : ServiceState) :
    SameCore s (bulkOuterLoop tot gcount tIdxs opCount task s).2 ∧
      SameTaskCore task (bulkOuterLoop tot gcount tIdxs opCount task s).1 := by
  induction tIdxs generalizing opCount task s with
  | nil => exact ⟨SameCore_refl s, SameTaskCore_refl task⟩
  | cons t rest ih =>
    simp only [bulkOuterLoop]
    have hin := bulkInnerLoop_frame tot t (List.range gcount) opCount task s
    exact ⟨SameCore_trans hin.1 (ih _ _ _).1,
           SameTaskCore_trans (SameTaskCore_trans hin.2 ⟨rfl, rfl, rfl, rfl, rfl⟩)
             (ih _ _ _).2⟩

theorem groupLoop_frame (operation : Option String) (tot : Nat) (idxs : List Nat)
    (task : TaskData) (s : ServiceState) :
    SameCore s (groupLoop operation tot idxs task s).2 ∧
      SameTaskCore task (groupLoop operation tot idxs task s).1 := by
  induction idxs generalizing task s with
  | nil => exact ⟨SameCore_refl s, SameTaskCore_refl task⟩
  | cons i rest ih =>
    simp only [groupLoop, ServiceState.tick, storeTask, pushWs]
    exact ⟨SameCore_trans ⟨rfl, rfl, rfl⟩ (ih _ _).1,
           SameTaskCore_trans ⟨rfl, rfl, rfl, rfl, rfl⟩ (ih _ _).2⟩

theorem process_message_sending_task_frame (task : TaskData) (s : ServiceState) :
    SameCore s (process_message_sending_task task s).2.2 ∧
      SameTaskCore task (process_message_sending_task task s).2.1 := by
  simp only [process_message_sending_task]
  by_cases htid : pyTruthy task.parameters.template_id
  · simp only [htid, Bool.not_true, Bool.false_eq_true, if_false]
    exact ⟨(sendLoop_frame _ _ _ _).1,
           SameTaskCore_trans (SameTaskCore_setResults task _) (sendLoop_frame _ _ _ _).2⟩
  · simp only [Bool.not_eq_true] at htid
    simp only [htid, Bool.not_false, if_true]
    exact ⟨SameCore_refl s, SameTaskCore_refl task⟩

theorem process_bulk_message_task_frame (task : TaskData) (s : ServiceState) :
    SameCore s (process_bulk_message_task task s).2.2 ∧
      SameTaskCore task (process_bulk_message_task task s).2.1 := by
  simp only [process_bulk_message_task]
  refine ⟨(bulkOuterLoop_frame _ _ _ _ _ _).1, ?_⟩
  exact SameTaskCore_trans
    (SameTaskCore_trans (SameTaskCore_setResults task _) (bulkOuterLoop_frame _ _ _ _ _ _).2)
    (SameTaskCore_mapResults _ _)

theorem process_group_management_task_frame (task : TaskData) (s : ServiceState) :
    SameCore s (process_group_management_task task s).2.2 ∧
      SameTaskCore task (process_group_management_task task s).2.1 := by
  simp only [process_group_management_task]
  exact ⟨(groupLoop_frame _ _ _ _ _).1,
         SameTaskCore_trans (SameTaskCore_setResults task _) (groupLoop_frame _ _ _ _ _).2⟩

theorem run_routine_frame (task : TaskData) (s : ServiceState) :
    SameCore s (run_routine task s).2.2 ∧
      SameTaskCore task (run_routine task s).2.1 := by
  cases hty : task.task_type with
  | message_sending =>
    simp only [run_routine, hty]
    exact process_message_sending_task_frame task s
  | bulk_message =>
    simp only [run_routine, hty]
    exact process_bulk_message_task_frame task s
  | group_management =>
    simp only [run_routine, hty]
    exact process_group_management_task_frame task s
  | system_maintenance =>
    simp only [run_routine, hty]
    exact ⟨SameCore_refl s, SameTaskCore_refl task⟩

/-- `_fail_task` unconditionally: terminal `failed` status, the raised message
as `error`, queue and index untouched. -/
theorem fail_task_spec (task : TaskData) (e : String) (s : ServiceState) :
    (fail_task task e s).1.status = .failed ∧
      (fail_task task e s).1.error = some e ∧
      SameCore s (fail_task task e s).2 :=
  ⟨rfl, rfl, rfl, rfl, rfl⟩

/-- `_process_task`: the collaborator state keeps its queue/index/ids; on
success the task ends `completed` with its `error` untouched, on an exception
`msg` it ends `failed` with `error = msg`. -/
theorem process_task_spec (wid : String) (task : TaskData) (s : ServiceState) :
    SameCore s (process_task wid task s).2.2 ∧
      ((process_task wid task s).1 = none →
        (process_task wid task s).2.1.status = .completed ∧
          (process_task wid task s).2.1.error = task.error) ∧
      (∀ msg, (process_task wid task s).1 = some msg →
        (process_task wid task s).2.1.status = .failed ∧
          (process_task wid task s).2.1.error = some msg) := by
  simp only [process_task, ServiceState.tick, storeTask, pushWs]
  set task₁ : TaskData := { task with
    status := .running, updated_at := s.clock,
    progress := { percentage := 0, stage := "starting", worker := some wid } } with htask₁
  set s₁ : ServiceState := { s with
    clock := s.clock + 1,
    db_log := s.db_log ++ [task₁],
    ws_queue := s.ws_queue ++ [.task_update task.task_id .running task₁.progress none] }
    with hs₁
  have hframe := run_routine_frame task₁ s₁
  have hcore₁ : SameCore s s₁ := ⟨rfl, rfl, rfl⟩
  cases hr : (run_routine task₁ s₁).1 with
  | none =>
    simp only [hr]
    refine ⟨SameCore_trans (SameCore_trans hcore₁ hframe.1) ⟨rfl, rfl, rfl⟩, ?_, ?_⟩
    · intro _
      exact ⟨by trivial, by simpa using hframe.2.2.1⟩
    · intro msg hmsg
      exact absurd hmsg (by simp)
  | some e =>
    simp only [hr]
    have hf := fail_task_spec (run_routine task₁ s₁).2.1 e (run_routine task₁ s₁).2.2
    refine ⟨SameCore_trans (SameCore_trans hcore₁ hframe.1) hf.2.2, ?_, ?_⟩
    · intro hnone
      exact absurd hnone (by simp)
    · intro msg hmsg
      have : msg = e := by simpa using hmsg.symm
      subst this
      exact ⟨hf.1, hf.2.1⟩

theorem inv_fl_mono {s : ServiceState} {fl fl' : List String} (hInv : Inv s fl)
    (hsub : ∀ x ∈ fl', x ∈ fl) : Inv s fl' :=
  { hInv with
    queue_flight_disjoint := fun e he hx => hInv.queue_flight_disjoint e he (hsub _ hx),
    flight_used := fun id hid => hInv.flight_used id (hsub _ hid) }

theorem inv_init (c : Nat) : Inv (initState c) [] := by
  refine ⟨?_, ?_, ?_, ?_, ?_, ?_, ?_, ?_, ?_, ?_⟩ <;> simp [initState, lookupTask, keysOf]

theorem inv_create {s : ServiceState} {fl : List String} (hInv : Inv s fl)
    (id : String) (ttype : TaskType) (params : TaskParams) (priority : Int)
    (est : Option Nat) (hfresh : id ∉ s.used_ids) :
    Inv (create_task id ttype params priority est s).2 fl := by
  have hid_not_key : id ∉ keysOf s.active_tasks := fun h => hfresh (hInv.keys_used id h)
  have hidq : id ∉ s.task_queue.map Prod.snd := by
    intro hmem
    obtain ⟨e, he, heq⟩ := List.mem_map.mp hmem
    exact hfresh (heq ▸ hInv.queue_used e he)
  simp only [create_task, ServiceState.tick, storeTask, pushWs]
  constructor
  · intro id' t hl
    by_cases hid' : id' = id
    · subst hid'
      rw [lookupTask_setTask_self] at hl
      cases hl
      simp
    · rw [lookupTask_setTask_ne hid'] at hl
      exact hInv.error_terminal id' t hl
  · intro id' t hl
    by_cases hid' : id' = id
    · subst hid'
      rw [lookupTask_setTask_self] at hl
      cases hl
      simp
    · rw [lookupTask_setTask_ne hid'] at hl
      exact hInv.error_status id' t hl
  · intro id' t hl
    by_cases hid' : id' = id
    · subst hid'
      rw [lookupTask_setTask_self] at hl
      cases hl
      intro _
      rfl
    · rw [lookupTask_setTask_ne hid'] at hl
      exact hInv.pending_no_results id' t hl
  · simp only [List.map_append, List.map_cons, List.map_nil]
    rw [List.nodup_append]
    exact ⟨hInv.queue_nodup, List.nodup_singleton id,
      fun a ha => by simpa using fun h => (h ▸ hidq) ha⟩
  · intro e he
    rcases List.mem_append.mp he with he | he
    · exact List.mem_append_left _ (hInv.queue_used e he)
    · simp only [List.mem_singleton] at he
      subst he
      simp
  · intro id' hid'
    rw [keysOf_setTask_not_mem hid_not_key] at hid'
    rcases List.mem_append.mp hid' with h | h
    · exact List.mem_append_left _ (hInv.keys_used id' h)
    · simp only [List.mem_singleton] at h
      subst h
      simp
  · rw [keysOf_setTask_not_mem hid_not_key, List.nodup_append]
    exact ⟨hInv.keys_nodup, List.nodup_singleton id,
      fun a ha => by simpa using fun h => (h ▸ hid_not_key) ha⟩
  · intro e he t hl
    rcases List.mem_append.mp he with he | he
    · have hne : e.2 ≠ id := fun h => hfresh (h ▸ hInv.queue_used e he)
      rw [lookupTask_setTask_ne hne] at hl
      exact hInv.queue_status e he t hl
    · simp only [List.mem_singleton] at he
      subst he
      rw [lookupTask_setTask_self] at hl
      cases hl
      exact Or.inl rfl
  · intro e he hx
    rcases List.mem_append.mp he with he | he
    · exact hInv.queue_flight_disjoint e he hx
    · simp only [List.mem_singleton] at he
      subst he
      exact hfresh (hInv.flight_used _ hx)
  · intro x hx
    exact List.mem_append_left _ (hInv.flight_used x hx)

theorem inv_cancel {s : ServiceState} {fl : List String} (hInv : Inv s fl)
    (id : String) : Inv (cancel_task id s).2 fl := by
  rcases hl : lookupTask id s.active_tasks with _ | task
  · simpa [cancel_task, hl] using hInv
  · by_cases hterm : task.status = .completed ∨ task.status = .failed ∨
        task.status = .cancelled
    · simpa [cancel_task, hl, hterm] using hInv
    · have hkey : id ∈ keysOf s.active_tasks := mem_keysOf_of_lookupTask hl
      simp only [cancel_task, hl, if_neg hterm, ServiceState.tick, storeTask, pushWs]
      constructor
      · intro id' t hl'
        by_cases hid' : id' = id
        · subst hid'
          rw [lookupTask_setTask_self] at hl'
          cases hl'
          intro _
          simp [cancelMutate]
        · rw [lookupTask_setTask_ne hid'] at hl'
          exact hInv.error_terminal id' t hl'
      · intro id' t hl'
        by_cases hid' : id' = id
        · subst hid'
          rw [lookupTask_setTask_self] at hl'
          cases hl'
          intro _
          simp [cancelMutate]
        · rw [lookupTask_setTask_ne hid'] at hl'
          exact hInv.error_status id' t hl'
      · intro id' t hl'
        by_cases hid' : id' = id
        · subst hid'
          rw [lookupTask_setTask_self] at hl'
          cases hl'
          intro h
          exact absurd h (by simp [cancelMutate])
        · rw [lookupTask_setTask_ne hid'] at hl'
          exact hInv.pending_no_results id' t hl'
      · exact hInv.queue_nodup
      · exact hInv.queue_used
      · intro id' hid'
        rw [keysOf_setTask_mem hkey] at hid'
        exact hInv.keys_used id' hid'
      · rw [keysOf_setTask_mem hkey]
        exact hInv.keys_nodup
      · intro e he t hl'
        by_cases hid' : e.2 = id
        · rw [hid', lookupTask_setTask_self] at hl'
          cases hl'
          exact Or.inr rfl
        · rw [lookupTask_setTask_ne hid'] at hl'
          exact hInv.queue_status e he t hl'
      · exact hInv.queue_flight_disjoint
      · exact hInv.flight_used

/-- Invariant after rebinding `tid` (present in the index, absent from the
queue) to a task `tfin` meeting the per-task obligations, in a state `s₂`
that shares `s₁`'s queue, index and issued ids, with a new in-flight list
meeting the flight obligations. -/
theorem inv_set_task {s₁ s₂ : ServiceState} {fl fl' : List String}
    (hInv : Inv s₁ fl) (hcore : SameCore s₁ s₂) (tid : String)
    (htidq : ∀ e ∈ s₁.task_queue, e.2 ≠ tid)
    (htid_key : tid ∈ keysOf s₁.active_tasks) (tfin : TaskData)
    (hA : (tfin.status = .failed ∨ tfin.status = .cancelled) → tfin.error ≠ none)
    (hB : tfin.error ≠ none →
      (tfin.status = .failed ∨ tfin.status = .cancelled ∨ tfin.status = .completed))
    (hC : tfin.status = .pending → tfin.results = none)
    (hdisj : ∀ e ∈ s₁.task_queue, e.2 ∉ fl')
    (hused : ∀ x ∈ fl', x ∈ s₁.used_ids) :
    Inv { s₂ with active_tasks := setTask tid tfin s₂.active_tasks } fl' := by
  obtain ⟨hq, ha, hu⟩ := hcore
  constructor
  · intro id' t hl'
    simp only [ha] at hl'
    by_cases hid' : id' = tid
    · subst hid'
      rw [lookupTask_setTask_self] at hl'
      cases hl'
      exact hA
    · rw [lookupTask_setTask_ne hid'] at hl'
      exact hInv.error_terminal id' t hl'
  · intro id' t hl'
    simp only [ha] at hl'
    by_cases hid' : id' = tid
    · subst hid'
      rw [lookupTask_setTask_self] at hl'
      cases hl'
      exact hB
    · rw [lookupTask_setTask_ne hid'] at hl'
      exact hInv.error_status id' t hl'
  · intro id' t hl'
    simp only [ha] at hl'
    by_cases hid' : id' = tid
    · subst hid'
      rw [lookupTask_setTask_self] at hl'
      cases hl'
      exact hC
    · rw [lookupTask_setTask_ne hid'] at hl'
      exact hInv.pending_no_results id' t hl'
  · simp only [hq]
    exact hInv.queue_nodup
  · intro e he
    simp only [hq] at he
    simp only [hu]
    exact hInv.queue_used e he
  · intro id' hid'
    simp only [ha] at hid'
    rw [keysOf_setTask_mem htid_key] at hid'
    simp only [hu]
    exact hInv.keys_used id' hid'
  · simp only [ha]
    rw [keysOf_setTask_mem htid_key]
    exact hInv.keys_nodup
  · intro e he t hl'
    simp only [hq] at he
    simp only [ha] at hl'
    rw [lookupTask_setTask_ne (htidq e he)] at hl'
    exact hInv.queue_status e he t hl'
  · intro e he
    simp only [hq] at he
    exact hdisj e he
  · intro x hx
    simp only [hu]
    exact hused x hx

theorem inv_begin {s : ServiceState} {fl : List String} (hInv : Inv s fl)
    (wid : String) :
    Inv (worker_begin wid s).1 (fl ++ ((worker_begin wid s).2).toList) := by
  rcases hq : s.task_queue with _ | ⟨⟨p, tid⟩, rest⟩
  · simp only [worker_begin, hq, Option.toList]
    exact inv_fl_mono hInv (by simp)
  · have hInv₁ : Inv { s with task_queue := rest } fl := by
      refine ⟨hInv.error_terminal, hInv.error_status, hInv.pending_no_results, ?_, ?_,
              hInv.keys_used, hInv.keys_nodup, ?_, ?_, hInv.flight_used⟩
      · have h := hInv.queue_nodup
        rw [hq] at h
        exact (List.nodup_cons.mp h).2
      · intro e he
        exact hInv.queue_used e (hq ▸ List.mem_cons_of_mem _ he)
      · intro e he t hl
        exact hInv.queue_status e (hq ▸ List.mem_cons_of_mem _ he) t hl
      · intro e he
        exact hInv.queue_flight_disjoint e (hq ▸ List.mem_cons_of_mem _ he)
    simp only [worker_begin, hq]
    rcases hlook : lookupTask tid s.active_tasks with _ | task
    · simp only [hlook, Option.toList]
      simpa using hInv₁
    · by_cases hcan : task.status = .cancelled
      · simp only [hlook, hcan, if_true, Option.toList]
        simpa using hInv₁
      · have hmem : ((p, tid) : Int × String) ∈ s.task_queue := by
          rw [hq]
          exact List.mem_cons_self _ _
        have hstat : task.status = .pending := by
          rcases hInv.queue_status (p, tid) hmem task hlook with h | h
          · exact h
          · exact absurd h hcan
        have herr : task.error = none := by
          by_contra hne
          rcases hInv.error_status tid task hlook hne with h | h | h <;>
            rw [hstat] at h <;> cases h
        have htid_notq : tid ∉ rest.map Prod.snd := by
          have h := hInv.queue_nodup
          rw [hq] at h
          exact (List.nodup_cons.mp h).1
        have htid_key : tid ∈ keysOf s.active_tasks := mem_keysOf_of_lookupTask hlook
        have hqused : tid ∈ s.used_ids := hInv.queue_used (p, tid) hmem
        simp only [hlook, if_neg hcan, ServiceState.tick, storeTask, pushWs, Option.toList]
        exact @inv_set_task { s with task_queue := rest }
          { s with
            task_queue := rest,
            clock := s.clock + 1,
            db_log := s.db_log ++ [{ task with
              status := .running, updated_at := s.clock,
              progress := { percentage := 0, stage := "starting",
                            worker := some wid } }],
            ws_queue := s.ws_queue ++ [.task_update task.task_id .running
              { percentage := 0, stage := "starting",
                worker := some wid } none] }
          fl (fl ++ [tid])
          hInv₁ ⟨rfl, rfl, rfl⟩ tid
          (fun e he h => htid_notq (h ▸ List.mem_map_of_mem Prod.snd he))
          htid_key
          ({ task with
              status := .running,
              updated_at := s.clock,
              progress := { percentage := 0, stage := "starting",
                            worker := some wid } })
          (by intro h; rcases h with h | h <;> simp at h)
          (by simp [herr])
          (by simp)
          (fun e he hx => by
            rcases List.mem_append.mp hx with hx | hx
            · exact hInv₁.queue_flight_disjoint e he hx
            · simp only [List.mem_singleton] at hx
              exact htid_notq (hx ▸ List.mem_map_of_mem Prod.snd he))
          (fun x hx => by
            rcases List.mem_append.mp hx with hx | hx
            · exact hInv.flight_used x hx
            · simp only [List.mem_singleton] at hx
              subst hx
              exact hqused)

theorem inv_finish {s : ServiceState} {fl : List String} (hInv : Inv s fl)
    (id : String) (hmem : id ∈ fl) :
    Inv (worker_finish id s) (fl.erase id) := by
  have hsub : ∀ x ∈ fl.erase id, x ∈ fl := fun x hx => List.mem_of_mem_erase hx
  have htidq : ∀ e ∈ s.task_queue, e.2 ≠ id :=
    fun e he h => hInv.queue_flight_disjoint e he (h ▸ hmem)
  have hdisj : ∀ e ∈ s.task_queue, e.2 ∉ fl.erase id :=
    fun e he hx => hInv.queue_flight_disjoint e he (hsub _ hx)
  have hused : ∀ x ∈ fl.erase id, x ∈ s.used_ids :=
    fun x hx => hInv.flight_used x (hsub _ hx)
  rcases hlook : lookupTask id s.active_tasks with _ | task
  · simp only [worker_finish, hlook]
    exact inv_fl_mono hInv hsub
  · have htid_key : id ∈ keysOf s.active_tasks := mem_keysOf_of_lookupTask hlook
    have hframe := run_routine_frame task s
    simp only [worker_finish, hlook]
    rcases hr : (run_routine task s).1 with _ | e
    · simp only [hr, ServiceState.tick, storeTask, pushWs]
      exact @inv_set_task s
        ({ (run_routine task s).2.2 with
          clock := (run_routine task s).2.2.clock + 1,
          db_log := (run_routine task s).2.2.db_log ++
            [{ (run_routine task s).2.1 with
               status := .completed, updated_at := (run_routine task s).2.2.clock,
               progress := { (run_routine task s).2.1.progress with
                 percentage := 100, stage := "completed" } }],
          ws_queue := ((run_routine task s).2.2.ws_queue ++
            [.task_update (run_routine task s).2.1.task_id .completed
               { (run_routine task s).2.1.progress with
                 percentage := 100, stage := "completed" }
               (run_routine task s).2.1.results]) ++
            [.log_message "info"
               ("Task completed successfully: " ++ (run_routine task s).2.1.task_id)] })
        fl (fl.erase id)
        hInv ⟨hframe.1.1, hframe.1.2.1, hframe.1.2.2⟩ id htidq htid_key
        ({ (run_routine task s).2.1 with
           status := .completed, updated_at := (run_routine task s).2.2.clock,
           progress := { (run_routine task s).2.1.progress with
             percentage := 100, stage := "completed" } })
        (by intro h; rcases h with h | h <;> simp at h)
        (fun _ => Or.inr (Or.inr rfl))
        (by intro h; simp at h)
        hdisj hused
    · simp only [hr]
      have hf1 := fail_task_spec (run_routine task s).2.1 e (run_routine task s).2.2
      have hf2 := fail_task_spec
        (fail_task (run_routine task s).2.1 e (run_routine task s).2.2).1 e
        (fail_task (run_routine task s).2.1 e (run_routine task s).2.2).2
      exact inv_set_task hInv
        (SameCore_trans (SameCore_trans hframe.1 hf1.2.2) hf2.2.2) id htidq htid_key _
        (fun _ => by rw [hf2.2.1]; simp)
        (fun _ => Or.inl hf2.1)
        (by intro h; rw [hf2.1] at h; cases h)
        hdisj hused

theorem inv_monitor {s : ServiceState} {fl : List String} (hInv : Inv s fl) :
    Inv (monitor_step s) fl := by
  simp only [monitor_step, ServiceState.tick, pushWs]
  constructor
  · intro id t hl
    exact hInv.error_terminal id t (lookupTask_filter hInv.keys_nodup hl)
  · intro id t hl
    exact hInv.error_status id t (lookupTask_filter hInv.keys_nodup hl)
  · intro id t hl
    exact hInv.pending_no_results id t (lookupTask_filter hInv.keys_nodup hl)
  · exact hInv.queue_nodup
  · exact hInv.queue_used
  · intro id hid
    exact hInv.keys_used id ((keysOf_filter_sublist _ _).subset hid)
  · exact List.Pairwise.sublist (keysOf_filter_sublist _ _) hInv.keys_nodup
  · intro e he t hl
    exact hInv.queue_status e he t (lookupTask_filter hInv.keys_nodup hl)
  · exact hInv.queue_flight_disjoint
  · exact hInv.flight_used

theorem inv_of_reach {s : ServiceState} {fl : List String} (h : Reach s fl) :
    Inv s fl := by
  induction h with
  | init c => exact inv_init c
  | create _ id ttype params priority est hfresh ih =>
    exact inv_create ih id ttype params priority est hfresh
  | cancel _ id ih => exact inv_cancel ih id
  | begin_ _ wid ih => exact inv_begin ih wid
  | finish _ id hmem ih => exact inv_finish ih id hmem
  | monitor _ ih => exact inv_monitor ih

theorem reach_sampleCreated : Reach sampleCreated [] :=
  Reach.create (Reach.init 0) "t1" .message_sending {} 5 none (by simp [initState])

theorem reach_sampleCancelled : Reach sampleCancelled [] :=
  Reach.cancel reach_sampleCreated "t1"

/-- The interleaved trace create; worker picks up (first await); cancel lands
while the task is RUNNING; the routine resumes and `_process_task` completes:
it is reachable with an empty in-flight list at the end. -/
theorem reach_interleaveDone : Reach interleaveDone [] := by
  have h1 : Reach interleaveCreated [] :=
    Reach.create (Reach.init 0) "t2" .message_sending
      { template_id := some "tpl", recipients := some ["r"] } 5 none
      (by simp [initState])
  have h2 := Reach.begin_ h1 "w"
  have heq : ([] ++ ((worker_begin "w" interleaveCreated).2).toList) = ["t2"] := by
    decide
  rw [heq] at h2
  have h3 : Reach interleaveCancelled ["t2"] := Reach.cancel h2 "t2"
  have h4 := Reach.finish h3 "t2" (by decide)
  have herase : (["t2"].erase "t2") = [] := by decide
  rw [herase] at h4
  exact h4

/-- Tightness of the `completed` disjunct in the amended C1: in the
interleaved trace above, the cancellation stores
`error = some "Task cancelled by user"` on the RUNNING task; when the routine
finishes, `_process_task` overwrites `status` to `completed` without clearing
`error`, so a reachable state holds a `completed` task with a non-null
error. -/
theorem interleaved_cancel_completed_keeps_error :
    (lookupTask "t2" interleaveDone.active_tasks).map
        (fun t => (t.status, t.error)) =
      some (TaskStatus.completed, some "Task cancelled by user") := by
  decide

/-!
## Claims C1, C2, C7, C8, C9
-/

/-- C1 counterexample: create a task and cancel it; the cancelled task has
`error = some "Task cancelled by user"` while its status is `cancelled`, not
`failed`, so the claimed "error non-null iff failed" invariant is false. -/
theorem c1_counterexample : ¬ C1Claim := by
  intro h
  have hl : lookupTask "t1" sampleCancelled.active_tasks = some sampleCancelledTask := by
    decide
  have hiff := h sampleCancelled [] reach_sampleCancelled "t1" sampleCancelledTask hl
  have h2 := hiff.mp (by decide)
  exact absurd h2 (by decide)

/-- C1 (amended): in every reachable service state — including interleavings
where `cancel_task` runs while a worker is between the dequeue and the end of
`_process_task` — a task whose status is `failed` or `cancelled` always
carries a non-null `error`, and a non-null `error` entails status `failed`,
`cancelled` or `completed`. The `completed` disjunct cannot be dropped: a
cancellation landing on a RUNNING task sets `status = cancelled` and stores
the error, and the subsequent completion overwrites the status to `completed`
while keeping the error (witnessed by `interleaved_cancel_completed_keeps_error`),
so the relation cannot be tightened back to an iff with `failed ∨ cancelled`. -/
theorem c1_error_status_invariant {s : ServiceState} {fl : List String}
    (h : Reach s fl) (id : String) (t : TaskData)
    (hl : lookupTask id s.active_tasks = some t) :
    ((t.status = .failed ∨ t.status = .cancelled) → t.error ≠ none) ∧
    (t.error ≠ none →
      (t.status = .failed ∨ t.status = .cancelled ∨ t.status = .completed)) :=
  ⟨(inv_of_reach h).error_terminal id t hl, (inv_of_reach h).error_status id t hl⟩

/-- C1 witness: the amended invariant evaluated on the concrete cancelled
task. -/
theorem c1_witness :
    ((sampleCancelledTask.status = .failed ∨ sampleCancelledTask.status = .cancelled) →
      sampleCancelledTask.error ≠ none) ∧
    (sampleCancelledTask.error ≠ none →
      (sampleCancelledTask.status = .failed ∨ sampleCancelledTask.status = .cancelled ∨
        sampleCancelledTask.status = .completed)) :=
  c1_error_status_invariant reach_sampleCancelled "t1" sampleCancelledTask
    (by decide)

/-- C2 counterexample: cancelling a fresh pending task returns `true`, but the
stored error string is "Task cancelled by user" — not the "cancelled by
caller" the claim states. -/
theorem c2_counterexample :
    (cancel_task "t1" sampleCreated).1 = true ∧
    (lookupTask "t1" (cancel_task "t1" sampleCreated).2.active_tasks).map
        TaskData.error = some (some "Task cancelled by user") ∧
    ¬ (lookupTask "t1" (cancel_task "t1" sampleCreated).2.active_tasks).map
        TaskData.error = some (some "cancelled by caller") := by
  decide

/-- C2 (amended: the error string is "Task cancelled by user"): `cancel_task`
returns `false` and leaves the whole state (hence every `updated_at`)
unchanged on an unknown id or a terminal task; otherwise it marks the task
cancelled with the error message, bumps `updated_at`, persists the snapshot,
broadcasts it, and returns `true`. -/
theorem c2_cancel_semantics (s : ServiceState) (id : String) :
    (lookupTask id s.active_tasks = none → cancel_task id s = (false, s)) ∧
    (∀ t, lookupTask id s.active_tasks = some t →
      (t.status = .completed ∨ t.status = .failed ∨ t.status = .cancelled) →
      cancel_task id s = (false, s)) ∧
    (∀ t, lookupTask id s.active_tasks = some t →
      ¬(t.status = .completed ∨ t.status = .failed ∨ t.status = .cancelled) →
      cancel_task id s =
        (true, { s with
          clock := s.clock + 1,
          active_tasks := setTask id (cancelMutate t s.clock) s.active_tasks,
          db_log := s.db_log ++ [cancelMutate t s.clock],
          ws_queue := s.ws_queue ++
            [.task_update id .cancelled t.progress t.results] })) := by
  refine ⟨?_, ?_, ?_⟩
  · intro hl
    simp [cancel_task, hl]
  · intro t hl ht
    simp [cancel_task, hl, ht]
  · intro t hl ht
    simp [cancel_task, hl, ht, ServiceState.tick, storeTask, pushWs, cancelMutate]

/-- C2 witness: the cancellation branch evaluated on the concrete pending
task. -/
theorem c2_witness :
    cancel_task "t1" sampleCreated =
      (true, { sampleCreated with
        clock := sampleCreated.clock + 1,
        active_tasks := setTask "t1" (cancelMutate samplePending sampleCreated.clock)
          sampleCreated.active_tasks,
        db_log := sampleCreated.db_log ++ [cancelMutate samplePending sampleCreated.clock],
        ws_queue := sampleCreated.ws_queue ++
          [.task_update "t1" .cancelled samplePending.progress samplePending.results] }) :=
  (c2_cancel_semantics sampleCreated "t1").2.2 samplePending (by decide) (by decide)

/-- C7: the queue entries produced by any sequence of `create_task` calls sit
in the queue in submission order — the `priority` value appears in the entry
but never influences the order — and each worker iteration dequeues exactly
the head of the queue (FIFO by arrival). -/
theorem c7_fifo_by_arrival (subs : List Submission) (s : ServiceState) (wid : String) :
    (createAll subs s).task_queue =
      s.task_queue ++ subs.map (fun sub => (sub.priority, sub.id)) ∧
    (∀ s' : ServiceState, (worker_step wid s').task_queue = s'.task_queue.tail) := by
  constructor
  · induction subs generalizing s with
    | nil => simp [createAll]
    | cons sub rest ih =>
      have h := ih ((create_task sub.id sub.ttype sub.params sub.priority sub.est s).2)
      simp only [createAll, List.foldl_cons] at h ⊢
      rw [h]
      simp [create_task, ServiceState.tick, storeTask, pushWs]
  · intro s'
    rcases hq : s'.task_queue with _ | ⟨⟨p, tid⟩, rest⟩
    · simp [worker_step, hq]
    · simp only [worker_step, hq, List.tail_cons]
      rcases hlook : lookupTask tid s'.active_tasks with _ | task
      · simp [hlook]
      · by_cases hcan : task.status = .cancelled
        · simp [hlook, hcan]
        · simp only [hlook, if_neg hcan]
          rcases hr : (process_task wid task { s' with task_queue := rest }).1 with _ | e
          · simp only [hr]
            exact (process_task_spec wid task { s' with task_queue := rest }).1.1
          · simp only [hr]
            have h1 := (process_task_spec wid task { s' with task_queue := rest }).1.1
            have h2 := (fail_task_spec
              (process_task wid task { s' with task_queue := rest }).2.1 e
              (process_task wid task { s' with task_queue := rest }).2.2).2.2.1
            rw [h2, h1]

/-- C8: `results` stays null while a task is `pending`; a task cancelled
before any worker dequeues it ends `cancelled` with `results` still absent,
and the worker that pops its stale queue entry discards it, leaving the whole
state untouched apart from the popped queue. -/
theorem c8_results_null_until_running :
    (∀ (s : ServiceState) (fl : List String), Reach s fl →
      ∀ id t, lookupTask id s.active_tasks = some t →
      t.status = .pending → t.results = none) ∧
    (∀ (s : ServiceState) (id : String) (ttype : TaskType) (params : TaskParams)
        (priority : Int) (est : Option Nat) (wid : String), s.task_queue = [] →
      (cancel_task id (create_task id ttype params priority est s).2).1 = true ∧
      (∀ t, lookupTask id
          (cancel_task id (create_task id ttype params priority est s).2).2.active_tasks =
            some t → t.status = .cancelled ∧ t.results = none) ∧
      worker_step wid (cancel_task id (create_task id ttype params priority est s).2).2 =
        { (cancel_task id (create_task id ttype params priority est s).2).2 with
          task_queue := [] }) := by
  constructor
  · intro s fl h id t hl
    exact (inv_of_reach h).pending_no_results id t hl
  · intro s id ttype params priority est wid hq
    simp only [create_task, cancel_task, worker_step, ServiceState.tick, storeTask,
      pushWs, lookupTask_setTask_self, hq, List.nil_append]
    simp [cancelMutate, lookupTask_setTask_self]

/-- C8 witness: the invariant and the scenario evaluated on the concrete
states. -/
theorem c8_witness :
    samplePending.results = none ∧
    (cancel_task "t1" (create_task "t1" .message_sending {} 5 none (initState 0)).2).1 =
      true :=
  ⟨c8_results_null_until_running.1 sampleCreated [] reach_sampleCreated "t1" samplePending
      (by decide) (by decide),
   (c8_results_null_until_running.2 (initState 0) "t1" .message_sending {} 5 none "w"
      rfl).1⟩

/-- C9: `list_tasks` returns at most `limit` entries, every entry matches the
status filter when one is given, and entries are non-increasing by
`created_at`. -/
theorem c9_list_tasks_spec (status_filter : Option TaskStatus) (k : Nat)
    (s : ServiceState) :
    (list_tasks status_filter k s).length ≤ k ∧
    (∀ e ∈ list_tasks status_filter k s, ∀ st, status_filter = some st →
      e.status = st) ∧
    (list_tasks status_filter k s).Pairwise entryGE := by
  refine ⟨?_, ?_, ?_⟩
  · simp only [list_tasks, List.length_take]
    omega
  · intro e he st hst
    subst hst
    simp only [list_tasks] at he
    have he' := (List.take_subset _ _) he
    have he2 := (List.perm_insertionSort entryGE _).subset he'
    obtain ⟨t, ht, rfl⟩ := List.mem_map.mp he2
    have hft := List.of_mem_filter ht
    simp only [decide_eq_true_eq] at hft
    exact hft
  · simp only [list_tasks]
    exact List.Pairwise.sublist (List.take_sublist _ _)
      (List.sorted_insertionSort entryGE _)

/-- C9 witness: the filter clause evaluated on the concrete one-task state. -/
theorem c9_witness : (TaskData.toListEntry samplePending).status = .pending :=
  (c9_list_tasks_spec (some .pending) 1 sampleCreated).2.1
    (TaskData.toListEntry samplePending) (by decide) .pending rfl

/-!
## Claim C4: the message-sending scenario
-/

/-- Running the send loop adds one sent record per index with `i % 10 ≠ 9` and
one failed record per index with `i % 10 = 9`. -/
theorem sendLoop_results (tot : Nat) (idxs : List Nat) :
    ∀ (task : TaskData) (s : ServiceState) (tr sc fc sk : Nat)
      (ms : List MessageRecord),
    task.results = some (.messageSending tr sc fc sk ms) →
    ∃ ms', (sendLoop tot idxs task s).1.results =
      some (.messageSending tr
        (sc + (idxs.filter (fun i => decide (i % 10 ≠ 9))).length)
        (fc + (idxs.filter (fun i => decide (i % 10 = 9))).length) sk ms') := by
  induction idxs with
  | nil =>
    intro task s tr sc fc sk ms h
    exact ⟨ms, by simpa [sendLoop] using h⟩
  | cons i rest ih =>
    intro task s tr sc fc sk ms h
    simp only [sendLoop, ServiceState.tick, storeTask, pushWs]
    by_cases hi : i % 10 = 9
    · have hsucc : ((i :: rest).filter (fun i => decide (i % 10 ≠ 9))).length =
          (rest.filter (fun i => decide (i % 10 ≠ 9))).length := by
        simp [List.filter_cons, hi]
      have hfail : ((i :: rest).filter (fun i => decide (i % 10 = 9))).length =
          (rest.filter (fun i => decide (i % 10 = 9))).length + 1 := by
        simp [List.filter_cons, hi]
      rw [hsucc, hfail,
        show fc + ((rest.filter (fun i => decide (i % 10 = 9))).length + 1) =
          fc + 1 + (rest.filter (fun i => decide (i % 10 = 9))).length from by omega]
      exact ih _ _ tr sc (fc + 1) sk
        (ms ++ [{ recipient := "recipient_" ++ toString i, status := "failed",
                  error := some "Rate limit exceeded", timestamp := s.clock + 1 }])
        (by simp [TaskData.mapResults, recordSendResult, h, hi])
    · have hsucc : ((i :: rest).filter (fun i => decide (i % 10 ≠ 9))).length =
          (rest.filter (fun i => decide (i % 10 ≠ 9))).length + 1 := by
        simp [List.filter_cons, hi]
      have hfail : ((i :: rest).filter (fun i => decide (i % 10 = 9))).length =
          (rest.filter (fun i => decide (i % 10 = 9))).length := by
        simp [List.filter_cons, hi]
      rw [hsucc, hfail,
        show sc + ((rest.filter (fun i => decide (i % 10 ≠ 9))).length + 1) =
          sc + 1 + (rest.filter (fun i => decide (i % 10 ≠ 9))).length from by omega]
      exact ih _ _ tr (sc + 1) fc sk
        (ms ++ [{ recipient := "recipient_" ++ toString i, status := "sent",
                  timestamp := s.clock + 1 }])
        (by simp [TaskData.mapResults, recordSendResult, h, hi])

/-- `_process_message_sending_task` on a task with a truthy `template_id` and
10 recipients: no exception, and exactly 10 attempts split 9 sent / 1 failed
(`i % 10 == 9` fails once among indices 0..9). -/
theorem process_message_spec (task : TaskData) (s : ServiceState)
    (htid : pyTruthy task.parameters.template_id = true)
    (hrs : ((task.parameters.recipients).getD []).length = 10) :
    (process_message_sending_task task s).1 = none ∧
    ∃ ms, (process_message_sending_task task s).2.1.results =
      some (.messageSending 10 9 1 0 ms) := by
  have hne : ((task.parameters.recipients).getD []).isEmpty = false := by
    rcases hcase : (task.parameters.recipients).getD [] with _ | ⟨a, l⟩
    · rw [hcase] at hrs
      simp at hrs
    · rfl
  simp only [process_message_sending_task, htid, Bool.not_true, Bool.false_eq_true,
    if_false, hne, hrs]
  constructor
  · trivial
  · obtain ⟨ms, hms⟩ := sendLoop_results 10 (List.range 10)
      { task with results := some (.messageSending 10 0 0 0 []) } s 10 0 0 0 [] rfl
    have h9 : ((List.range 10).filter (fun i => decide (i % 10 ≠ 9))).length = 9 := by
      decide
    have h1 : ((List.range 10).filter (fun i => decide (i % 10 = 9))).length = 1 := by
      decide
    rw [h9, h1] at hms
    exact ⟨ms, by simpa using hms⟩

/-- `_process_task` on such a task: terminates without exception in status
`completed`, keeping the 9/1 results split. -/
theorem process_task_message_spec (wid : String) (task : TaskData) (s : ServiceState)
    (hty : task.task_type = .message_sending)
    (htid : pyTruthy task.parameters.template_id = true)
    (hrs : ((task.parameters.recipients).getD []).length = 10) :
    (process_task wid task s).1 = none ∧
    (process_task wid task s).2.1.status = .completed ∧
    ∃ ms, (process_task wid task s).2.1.results = some (.messageSending 10 9 1 0 ms) := by
  simp only [process_task, ServiceState.tick, storeTask, pushWs, run_routine, hty]
  have hpm := process_message_spec
    { task_id := task.task_id, task_type := TaskType.message_sending,
      status := TaskStatus.running, created_at := task.created_at,
      updated_at := s.clock,
      progress := { percentage := 0, stage := "starting", worker := some wid },
      parameters := task.parameters, results := task.results, error := task.error,
      estimated_completion := task.estimated_completion, priority := task.priority }
    { task_queue := s.task_queue, active_tasks := s.active_tasks,
      db_log := s.db_log ++
        [{ task_id := task.task_id, task_type := TaskType.message_sending,
           status := TaskStatus.running, created_at := task.created_at,
           updated_at := s.clock,
           progress := { percentage := 0, stage := "starting", worker := some wid },
           parameters := task.parameters, results := task.results, error := task.error,
           estimated_completion := task.estimated_completion,
           priority := task.priority }],
      ws_queue := s.ws_queue ++
        [WsEvent.task_update task.task_id TaskStatus.running
          { percentage := 0, stage := "starting", worker := some wid } none],
      clock := s.clock + 1, used_ids := s.used_ids }
    htid hrs
  obtain ⟨hnone, ms, hres⟩ := hpm
  simp only [hnone]
  exact ⟨by trivial, by trivial, ⟨ms, hres⟩⟩

/-- One worker iteration on a state whose queue head is a live (non-cancelled)
message task with a truthy template and 10 recipients: the task ends
`completed` with `sent_count = 9` and `failed_count = 1`. -/
theorem worker_step_message_completes (wid : String) (s : ServiceState) (p : Int)
    (tid : String) (rest : List (Int × String)) (task : TaskData)
    (hq : s.task_queue = (p, tid) :: rest)
    (hlook : lookupTask tid s.active_tasks = some task)
    (hcan : task.status ≠ .cancelled)
    (hty : task.task_type = .message_sending)
    (htid : pyTruthy task.parameters.template_id = true)
    (hrs : ((task.parameters.recipients).getD []).length = 10) :
    ∃ t, lookupTask tid (worker_step wid s).active_tasks = some t ∧
      t.status = .completed ∧
      ∃ ms, t.results = some (.messageSending 10 9 1 0 ms) := by
  have hspec := process_task_message_spec wid task { s with task_queue := rest }
    hty htid hrs
  simp only [worker_step, hq, hlook, if_neg hcan]
  simp only [hspec.1]
  exact ⟨_, lookupTask_setTask_self _ _ _, hspec.2.1, hspec.2.2⟩

/-- C4: submitting a message-send task with a truthy template id and 10
recipients returns the id with the task still `pending` and `results` absent
(none of the sends has run); after one worker iteration the task is
`completed` and `sent_count + failed_count = 10`. -/
theorem c4_message_send_scenario (s : ServiceState) (id tid wid : String)
    (rs : List String) (priority : Int) (hq : s.task_queue = [])
    (htid : tid ≠ "") (hlen : rs.length = 10) :
    (create_task id .message_sending (msgParams tid rs) priority none s).1 = id ∧
    (∀ t, lookupTask id
        (create_task id .message_sending (msgParams tid rs) priority none s).2.active_tasks =
          some t → t.status = .pending ∧ t.results = none) ∧
    (∃ t, lookupTask id
        (worker_step wid
          (create_task id .message_sending (msgParams tid rs) priority none s).2).active_tasks =
          some t ∧ t.status = .completed ∧
        ∃ total sent failed skipped ms,
          t.results = some (.messageSending total sent failed skipped ms) ∧
          sent + failed = 10) := by
  have hactive : (create_task id .message_sending (msgParams tid rs) priority none s).2.active_tasks =
      setTask id
        { task_id := id, task_type := .message_sending, status := .pending,
          created_at := s.clock, updated_at := s.clock,
          progress := { percentage := 0, stage := "created" },
          parameters := msgParams tid rs, priority := priority }
        s.active_tasks := by
    simp [create_task, ServiceState.tick, storeTask, pushWs]
  have hqueue : (create_task id .message_sending (msgParams tid rs) priority none s).2.task_queue =
      (priority, id) :: [] := by
    simp [create_task, ServiceState.tick, storeTask, pushWs, hq]
  have hlook : lookupTask id
      (create_task id .message_sending (msgParams tid rs) priority none s).2.active_tasks =
      some { task_id := id, task_type := .message_sending, status := .pending,
             created_at := s.clock, updated_at := s.clock,
             progress := { percentage := 0, stage := "created" },
             parameters := msgParams tid rs, priority := priority } := by
    rw [hactive]
    exact lookupTask_setTask_self _ _ _
  refine ⟨rfl, ?_, ?_⟩
  · intro t hl
    rw [hlook] at hl
    cases hl
    exact ⟨rfl, rfl⟩
  · have hie : tid.isEmpty = false := by
      cases hb : tid.isEmpty
      · rfl
      · exact absurd ((String.isEmpty_iff tid).mp hb) htid
    have htru : pyTruthy (msgParams tid rs).template_id = true := by
      simp [msgParams, pyTruthy, hie]
    obtain ⟨t, hl, hstat, ms, hres⟩ := worker_step_message_completes wid
      (create_task id .message_sending (msgParams tid rs) priority none s).2
      priority id [] _ hqueue hlook (by intro h; cases h) rfl
      (by simpa [msgParams] using htru) (by simp [msgParams, hlen])
    exact ⟨t, hl, hstat, 10, 9, 1, 0, ms, hres, rfl⟩

/-- C4 witness: the scenario evaluated on a fresh service with a concrete
template and 10 concrete recipients. -/
theorem c4_witness :
    (create_task "t2" .message_sending
      (msgParams "tpl" ["r0", "r1", "r2", "r3", "r4", "r5", "r6", "r7", "r8", "r9"])
      5 none (initState 0)).1 = "t2" :=
  (c4_message_send_scenario (initState 0) "t2" "tpl" "w0"
    ["r0", "r1", "r2", "r3", "r4", "r5", "r6", "r7", "r8", "r9"] 5 rfl
    (by decide) (by decide)).1

/-!
## Claims C5, C6: the broadcast layer
-/

theorem bcastAllLoop_spec (conns : List WsConn) :
    bcastAllLoop conns =
      ((conns.filter (·.write_ok)).length,
       (conns.filter (fun c => !c.write_ok)).map (·.client_id),
       conns.map (·.client_id)) := by
  induction conns with
  | nil => rfl
  | cons c rest ih =>
    simp only [bcastAllLoop, ih]
    by_cases h : c.write_ok
    · simp [h, List.filter_cons]
    · simp [h, List.filter_cons]

theorem bcastTypeLoop_spec (ch : String) (conns : List WsConn) :
    bcastTypeLoop ch conns =
      ((conns.filter (fun c => decide (c.channel = ch) && c.write_ok)).length,
       (conns.filter (fun c => decide (c.channel = ch) && !c.write_ok)).map (·.client_id),
       (conns.filter (fun c => decide (c.channel = ch))).map (·.client_id)) := by
  induction conns with
  | nil => rfl
  | cons c rest ih =>
    simp only [bcastTypeLoop, ih]
    by_cases hch : c.channel = ch
    · by_cases hok : c.write_ok
      · simp [hch, hok, List.filter_cons]
      · simp [hch, hok, List.filter_cons]
    · simp [hch, List.filter_cons]

theorem disconnect_eq_filter {i : String} {conns : List WsConn}
    (h : (conns.map (·.client_id)).Nodup) :
    disconnect i conns = conns.filter (fun c => decide (c.client_id ≠ i)) := by
  induction conns with
  | nil => rfl
  | cons c rest ih =>
    simp only [List.map_cons, List.nodup_cons] at h
    by_cases hc : c.client_id = i
    · simp only [disconnect, if_pos hc, List.filter_cons]
      have hp : (decide (c.client_id ≠ i)) = false := by simp [hc]
      rw [hp]
      simp only [Bool.false_eq_true, if_false]
      rw [List.filter_eq_self.mpr]
      intro x hx
      simp only [decide_eq_true_eq]
      intro hxe
      have : c.client_id ∈ rest.map (·.client_id) := by
        rw [hc, ← hxe]
        exact List.mem_map_of_mem _ hx
      exact h.1 this
    · simp only [disconnect, if_neg hc, List.filter_cons]
      have hp : (decide (c.client_id ≠ i)) = true := by simp [hc]
      rw [hp]
      simp [ih h.2]

theorem removeIds_eq_filter (ids : List String) (conns : List WsConn)
    (h : (conns.map (·.client_id)).Nodup) :
    removeIds ids conns = conns.filter (fun c => decide (c.client_id ∉ ids)) := by
  induction ids generalizing conns with
  | nil =>
    simp only [removeIds, List.foldl_nil]
    rw [List.filter_eq_self.mpr]
    intro x _
    simp
  | cons i ids ih =>
    have hstep : removeIds (i :: ids) conns = removeIds ids (disconnect i conns) := rfl
    rw [hstep, disconnect_eq_filter h]
    have h' : ((conns.filter (fun c => decide (c.client_id ≠ i))).map (·.client_id)).Nodup :=
      List.Pairwise.sublist ((List.filter_sublist conns).map _) h
    rw [ih _ h', List.filter_filter]
    apply List.filter_congr
    intro c _
    simp only [List.mem_cons, not_or, decide_not, Bool.and_comm]
    simp [Bool.not_eq_true', decide_eq_true_eq]

theorem mem_filter_map_id_iff {q : WsConn → Bool} {conns : List WsConn}
    (h : (conns.map (·.client_id)).Nodup) {c : WsConn} (hc : c ∈ conns) :
    c.client_id ∈ (conns.filter q).map (·.client_id) ↔ q c = true := by
  constructor
  · intro hm
    obtain ⟨c', hc', he⟩ := List.mem_map.mp hm
    have hc'mem : c' ∈ conns := (List.filter_sublist conns).subset hc'
    have : c' = c := List.inj_on_of_nodup_map h hc'mem hc he
    exact this ▸ List.of_mem_filter hc'
  · intro hq
    exact List.mem_map_of_mem _ (List.mem_filter.mpr ⟨hc, hq⟩)

theorem broadcast_to_all_spec (conns : List WsConn)
    (h : (conns.map (·.client_id)).Nodup) :
    broadcast_to_all conns =
      { sent_count := (conns.filter (·.write_ok)).length,
        writes := conns.map (·.client_id),
        conns := conns.filter (·.write_ok) } := by
  simp only [broadcast_to_all, bcastAllLoop_spec]
  rw [removeIds_eq_filter _ _ h]
  congr 1
  apply List.filter_congr
  intro c hc
  have hmem := mem_filter_map_id_iff (q := fun c => !c.write_ok) h hc
  rcases hok : c.write_ok
  · have hin := hmem.mpr (by simp [hok])
    simp [hin, hok]
  · have hout : c.client_id ∉
        (conns.filter (fun c => !c.write_ok)).map (·.client_id) :=
      fun hm => by simpa [hok] using hmem.mp hm
    simp [hout, hok]

theorem broadcast_to_type_spec (ch : String) (conns : List WsConn)
    (h : (conns.map (·.client_id)).Nodup) :
    broadcast_to_type ch conns =
      { sent_count :=
          (conns.filter (fun c => decide (c.channel = ch) && c.write_ok)).length,
        writes := (conns.filter (fun c => decide (c.channel = ch))).map (·.client_id),
        conns :=
          conns.filter (fun c => !(decide (c.channel = ch) && !c.write_ok)) } := by
  simp only [broadcast_to_type, bcastTypeLoop_spec]
  rw [removeIds_eq_filter _ _ h]
  congr 1
  apply List.filter_congr
  intro c hc
  have hmem := mem_filter_map_id_iff
    (q := fun c => decide (c.channel = ch) && !c.write_ok) h hc
  by_cases hq : (decide (c.channel = ch) && !c.write_ok) = true
  · have hin := hmem.mpr hq
    simp [hin, hq]
  · have hout : c.client_id ∉ (conns.filter
        (fun c => decide (c.channel = ch) && !c.write_ok)).map (·.client_id) :=
      fun hm => hq (hmem.mp hm)
    rw [Bool.not_eq_true] at hq
    simp [hout, hq]

/-- C5: the dispatch loop's routing policy: a `task_update` message is written
to every registered connection regardless of channel, a `log` message exactly
to the `logs` channel, a `monitoring` message exactly to the `monitoring`
channel, and any other message type to every connection. -/
theorem c5_dispatch_routing (conns : List WsConn) (mtype : String) :
    ((process_queue_message "task_update" conns).writes = conns.map (·.client_id)) ∧
    ((process_queue_message "log" conns).writes =
      (conns.filter (fun c => decide (c.channel = "logs"))).map (·.client_id)) ∧
    ((process_queue_message "monitoring" conns).writes =
      (conns.filter (fun c => decide (c.channel = "monitoring"))).map (·.client_id)) ∧
    (mtype ≠ "log" → mtype ≠ "monitoring" →
      (process_queue_message mtype conns).writes = conns.map (·.client_id)) := by
  refine ⟨?_, ?_, ?_, ?_⟩
  · simp [process_queue_message, broadcast_to_all, bcastAllLoop_spec]
  · simp [process_queue_message, broadcast_to_type, bcastTypeLoop_spec]
  · simp [process_queue_message, broadcast_to_type, bcastTypeLoop_spec]
  · intro h1 h2
    simp only [process_queue_message, if_neg h1, if_neg h2]
    by_cases h3 : mtype = "task_update" <;>
      simp [h3, broadcast_to_all, bcastAllLoop_spec]

/-- C5 witness: an unknown message type is broadcast to all connections of the
concrete registry. -/
theorem c5_witness :
    (process_queue_message "stats" demoConns).writes = demoConns.map (·.client_id) :=
  (c5_dispatch_routing demoConns "stats").2.2.2 (by decide) (by decide)

/-- C6: in one broadcast call (`broadcast_to_all` or `broadcast_to_type`), a
write failure on one connection never prevents the write attempt to any other
connection; every connection whose write failed is removed from the registry —
so it no longer counts toward `get_connection_stats`' total — and is excluded
from the returned delivered count. -/
theorem c6_broadcast_failure_isolation (conns : List WsConn) (ch : String)
    (h : (conns.map (·.client_id)).Nodup) :
    ((broadcast_to_all conns).writes = conns.map (·.client_id) ∧
     (broadcast_to_all conns).sent_count = (conns.filter (·.write_ok)).length ∧
     (broadcast_to_all conns).conns = conns.filter (·.write_ok) ∧
     (get_connection_stats (broadcast_to_all conns).conns).total_connections =
       (conns.filter (·.write_ok)).length) ∧
    ((broadcast_to_type ch conns).writes =
       (conns.filter (fun c => decide (c.channel = ch))).map (·.client_id) ∧
     (broadcast_to_type ch conns).sent_count =
       (conns.filter (fun c => decide (c.channel = ch) && c.write_ok)).length ∧
     (broadcast_to_type ch conns).conns =
       conns.filter (fun c => !(decide (c.channel = ch) && !c.write_ok)) ∧
     (get_connection_stats (broadcast_to_type ch conns).conns).total_connections =
       (conns.filter (fun c => !(decide (c.channel = ch) && !c.write_ok))).length) := by
  have hall := broadcast_to_all_spec conns h
  have htyp := broadcast_to_type_spec ch conns h
  refine ⟨⟨?_, ?_, ?_, ?_⟩, ⟨?_, ?_, ?_, ?_⟩⟩ <;>
    simp [hall, htyp, get_connection_stats]

/-- C6 witness: the failure-isolation facts evaluated on the concrete
registry (one broken socket among three). -/
theorem c6_witness :
    (broadcast_to_all demoConns).writes = demoConns.map (·.client_id) ∧
    (broadcast_to_all demoConns).conns = demoConns.filter (·.write_ok) :=
  ⟨(c6_broadcast_failure_isolation demoConns "logs" (by decide)).1.1,
   (c6_broadcast_failure_isolation demoConns "logs" (by decide)).1.2.2.1⟩

/-!
## Claims C3, C10: the account safety scorer
-/

@[simp] theorem pyMaxRiskLevel_cons_cons (a b : RiskLevel) (l : List RiskLevel) :
    pyMaxRiskLevel (a :: b :: l) = none := rfl

/-- `assess_operation_risk('send_messages', ...)` always raises: for this
operation class the `risk_scores` list holds at least the hourly, daily and
flood-wait entries, and Python's `max` raises `TypeError` the moment it
compares two plain-`Enum` `RiskLevel` members. -/
theorem assess_send_messages_raises (now n : Nat) (content : Option String)
    (st : SafetyState) :
    assess_operation_risk now "send_messages" n content st = none := by
  rcases content with _ | c
  · simp only [assess_operation_risk, if_true]
    split <;> simp [pyMaxRiskLevel]
  · rcases hce : c.isEmpty
    all_goals simp only [assess_operation_risk, if_true, hce, Bool.not_false,
      Bool.not_true, Bool.false_eq_true, if_false]
    all_goals split <;> simp [pyMaxRiskLevel]

/-- C3 (code bug): for every scorer state, volume and content, both
`assess_operation_risk('send_messages', ...)` and
`should_proceed_with_operation('send_messages', ..., force=False)` raise a
`TypeError` (`'>' not supported between instances of 'RiskLevel'`) instead of
returning the promised pair: `RiskLevel` derives from plain `Enum`, which has
no ordering, and `max(risk_scores)` must compare at least two entries. -/
theorem c3_send_messages_assessment_raises (now n : Nat) (content : Option String)
    (st : SafetyState) :
    assess_operation_risk now "send_messages" n content st = none ∧
    should_proceed_with_operation now "send_messages" n content false st = none := by
  have h := assess_send_messages_raises now n content st
  exact ⟨h, by simp [should_proceed_with_operation, h]⟩

/-- Evaluation at the concrete failing input of the C3 bug: a fresh manager
asked to assess one message raises. -/
theorem assess_fresh_manager_raises :
    assess_operation_risk 0 "send_messages" 1 none freshSafetyState = none :=
  assess_send_messages_raises 0 1 none freshSafetyState

/-- C10: `should_proceed_with_operation` with `force=True` returns
`(True, ["Operation forced by user"])` before any risk assessment, warmup
check or cooling-off check runs, and leaves the whole scorer state (health
metrics, rolling counters, content hashes, reset times) unchanged. -/
theorem c10_force_bypasses_assessment (now : Nat) (operation_type : String)
    (recipient_count : Nat) (content : Option String) (st : SafetyState) :
    should_proceed_with_operation now operation_type recipient_count content true st =
      some ((true, ["Operation forced by user"]), st) := rfl

end Tgpro
